import Mathlib

/-!
# elevated: a shallow embedding of `main.go`

The program is a thin sequencing of calls into GLFW and OpenGL.  The embedding
keeps that shape: every function of `main.go` becomes a Lean function that
appends the library calls it makes to a trace (`List Call`), and every value
the libraries hand back (a handle, a status word, an attribute location, the
text of an info log) is read from a `World`, an arbitrary function of the
calls made so far.  Go panics are results of their own (`Outcome.panicked`).

`main` calls these functions on the same `World`.  Its run lists the
statements of `main` itself (`Step`) next to the OpenGL calls made; what GLFW
and the GL loader give back is its input.
-/

namespace Elevated

/-! ## Go machine integers, strings and errors -/

/-- Go conversion to `int32`: two's complement wrap-around into `[-2^31, 2^31)`. -/
def int32 (x : Int) : Int := (x + 2 ^ 31) % 2 ^ 32 - 2 ^ 31

/-- Go conversion to `uint32`: wrap-around into `[0, 2^32)`. -/
def uint32 (x : Int) : Nat := (x % 2 ^ 32).toNat

/-- Go's `error`: `none` is `nil`, `some msg` an error with that message. -/
abbrev error := Option String

/-- The NUL byte. -/
def NUL : Char := Char.ofNat 0

/-- Go's `strings.HasSuffix(s, "\x00")`: the last byte of `s` is NUL. -/
def endsInNUL (s : String) : Bool := s.data.getLast? == some NUL

namespace strings

/-- Go's `strings.Repeat(s, count)`: `count` copies of `s`; it panics (`none`)
on a negative count.  (It also panics when the length of the result overflows
`int`; the program only repeats a one-byte string, whose result is as long as
the count, itself an `int`.) -/
def Repeat (s : String) (count : Int) : Option String :=
  if count < 0 then none else some ⟨(List.replicate count.toNat s.data).flatten⟩

end strings

/-! ## The library interface -/

namespace gl

def FALSE : Int := 0
def DEPTH_BUFFER_BIT : Nat := 0x00000100
def COLOR_BUFFER_BIT : Nat := 0x00004000
def TRIANGLES : Nat := 0x0004
def LESS : Nat := 0x0201
def DEPTH_TEST : Nat := 0x0B71
def FLOAT : Nat := 0x1406
def ARRAY_BUFFER : Nat := 0x8892
def STATIC_DRAW : Nat := 0x88E4
def FRAGMENT_SHADER : Nat := 0x8B30
def VERTEX_SHADER : Nat := 0x8B31
def COMPILE_STATUS : Nat := 0x8B81
def LINK_STATUS : Nat := 0x8B82
def INFO_LOG_LENGTH : Nat := 0x8B84
def VENDOR : Nat := 0x1F00
def RENDERER : Nat := 0x1F01
def VERSION : Nat := 0x1F02
def SHADING_LANGUAGE_VERSION : Nat := 0x8B8C

/-- Binding helper `gl.Str`: the address of the bytes of a NUL-terminated Go
string (here: the string itself); it panics (`none`) on a string that does
not end in NUL. -/
def Str (str : String) : Option String :=
  if endsInNUL str then some str else none

/-- Binding helper `gl.Strs`: the C copies of the given strings. -/
def Strs (strs : List String) : List String := strs

end gl

namespace glfw

def True : Int := 1
def Resizable : Nat := 0x00020003
def ContextVersionMajor : Nat := 0x00022002
def ContextVersionMinor : Nat := 0x00022003
def OpenGLForwardCompatible : Nat := 0x00022006
def OpenGLProfile : Nat := 0x00022008
def OpenGLCoreProfile : Int := 0x00032001
def KeyEscape : Int := 256

end glfw

/-- One call into the OpenGL binding or on the GLFW window, with its
arguments.  Out-parameters are not arguments: what the library stores in them
is read from the `World`. -/
inductive Call
  | CreateShader (shaderType : Nat)
  | ShaderSource (shader : Nat) (count : Int) (sources : List String)
  | CompileShader (shader : Nat)
  | GetShaderiv (shader : Nat) (pname : Nat)
  | GetShaderInfoLog (shader : Nat) (bufSize : Int) (infoLog : String)
  | DeleteShader (shader : Nat)
  | CreateProgram
  | AttachShader (program : Nat) (shader : Nat)
  | LinkProgram (program : Nat)
  | DetachShader (program : Nat) (shader : Nat)
  | GetProgramiv (program : Nat) (pname : Nat)
  | GetProgramInfoLog (program : Nat) (bufSize : Int) (infoLog : String)
  | DeleteProgram (program : Nat)
  | GenVertexArrays (n : Int)
  | BindVertexArray (array : Nat)
  | GenBuffers (n : Int)
  | BindBuffer (target : Nat) (buffer : Nat)
  | BufferData (target : Nat) (size : Int) (data : List ℚ) (usage : Nat)
  | GetAttribLocation (program : Nat) (name : String)
  | EnableVertexAttribArray (index : Nat)
  | VertexAttribPointer (index : Nat) (size : Int) (xtype : Nat) (normalized : Bool)
      (stride : Int) (offset : Int)
  | Enable (cap : Nat)
  | DepthFunc (func : Nat)
  | ClearColor (red green blue alpha : ℚ)
  | Clear (mask : Nat)
  | UseProgram (program : Nat)
  | DrawArrays (mode : Nat) (first : Int) (count : Int)
  | GetString (name : Nat)
  | SwapBuffers
  | SetShouldClose (value : Bool)
  deriving DecidableEq

/-- The libraries' side of every call: `result calls` is the integer the last
call of the history `calls` returns or stores in its out-parameter, and
`written calls` the content of the buffer handed to that call once it is back. -/
structure World where
  result : List Call → Int
  written : List Call → String

/-- How a function that may panic ends, with the calls made up to then. -/
inductive Outcome (α : Type)
  | returned (value : α) (calls : List Call)
  | panicked (calls : List Call)
  deriving DecidableEq

/-! ## `compileShader` and `newProgram` -/

/-- Type `program uint32` of `main.go`. -/
abbrev program := Nat

/-- Function `compileShader` of `main.go`, run after the calls `t`. -/
def compileShader (W : World) (source : String) (shaderType : Nat) (t : List Call) :
    Outcome (Nat × error) :=
  let t := t ++ [Call.CreateShader shaderType]
  let shader := uint32 (W.result t)
  let csources := gl.Strs [source]
  let t := t ++ [Call.ShaderSource shader 1 csources]
  let t := t ++ [Call.CompileShader shader]
  let t := t ++ [Call.GetShaderiv shader gl.COMPILE_STATUS]
  let status := int32 (W.result t)
  if status = gl.FALSE then
    let t := t ++ [Call.GetShaderiv shader gl.INFO_LOG_LENGTH]
    let logLength := int32 (W.result t)
    match strings.Repeat "\x00" (int32 (logLength + 1)) with
    | none => Outcome.panicked t
    | some log =>
      match gl.Str log with
      | none => Outcome.panicked t
      | some buf =>
        let t := t ++ [Call.GetShaderInfoLog shader logLength buf]
        let log := W.written t
        let t := t ++ [Call.DeleteShader shader]
        Outcome.returned (0, some ("failed to compile " ++ source ++ ": " ++ log)) t
  else
    Outcome.returned (shader, none) t

/-- Function `newProgram` of `main.go`, run after the calls `t`. -/
def newProgram (W : World) (shaders : List Nat) (t : List Call) : Outcome (program × error) :=
  if shaders.length = 0 then
    Outcome.returned (0, some "no shaders provided") t
  else
    let t := t ++ [Call.CreateProgram]
    let p := uint32 (W.result t)
    let t := shaders.foldl (fun t shader => t ++ [Call.AttachShader p shader]) t
    let t := t ++ [Call.LinkProgram p]
    let t := shaders.foldl (fun t shader => t ++ [Call.DetachShader p shader]) t
    let t := t ++ [Call.GetProgramiv p gl.LINK_STATUS]
    let status := int32 (W.result t)
    if status = gl.FALSE then
      let t := t ++ [Call.GetProgramiv p gl.INFO_LOG_LENGTH]
      let logLength := int32 (W.result t)
      match strings.Repeat "\x00" (int32 (logLength + 1)) with
      | none => Outcome.panicked t
      | some log =>
        match gl.Str log with
        | none => Outcome.panicked t
        | some buf =>
          let t := t ++ [Call.GetProgramInfoLog p logLength buf]
          let log := W.written t
          let t := t ++ [Call.DeleteProgram p]
          Outcome.returned (0, some ("failed to link program: " ++ log)) t
    else
      Outcome.returned (p, none) t

/-! ## Strings handed to the binding, and the shader sources -/

/-- Function `glStr` of `main.go`: `gl.Str(s + "\x00")`. -/
def glStr (s : String) : Option String :=
  gl.Str (s ++ "\x00")

/-- Function `shaderResource` of `main.go`. -/
def shaderResource (s : String) : String :=
  "#version 330\n\n" ++ s ++ "\x00"

/-- Variable `vertexShaderSource` of `main.go`. -/
def vertexShaderSource : String :=
  shaderResource "\nin vec3 vert;\n\nvoid main() \x7b\n    gl_Position = vec4(vert, 1);\n\x7d\n"

/-- Variable `fragmentShaderSource` of `main.go`. -/
def fragmentShaderSource : String :=
  shaderResource
    "\nout vec4 outputColor;\n\nvoid main() \x7b\n    outputColor = vec4(1.0, 1.0, 1.0, 1.0);\n\x7d\n"

/-! ## `LoadTriangle`, `setupScene`, `drawScene` -/

/-- Go `float64` values, kept as the decimal constants the source writes; no
floating-point arithmetic is done on them. -/
abbrev float64 := ℚ

/-- Size in bytes of one `float64` (`unsafe.Sizeof`). -/
def float64.size : Nat := 8

/-- Size in bytes of the backing array of a `[]float64`. -/
def float64.sliceBytes (data : List float64) : Nat := data.length * float64.size

/-- Type `state` of `main.go`. -/
structure state where
  vao : Nat
  vbo : Nat
  deriving DecidableEq

/-- Method `(p program) attr` of `main.go`, run after the calls `t`. -/
def program.attr (W : World) (p : program) (s : String) (t : List Call) : Outcome (Nat × error) :=
  match glStr s with
  | none => Outcome.panicked t
  | some name =>
    let t := t ++ [Call.GetAttribLocation p name]
    let a := int32 (W.result t)
    if a = -1 then
      Outcome.returned (0, some ("program attribute not found: " ++ s)) t
    else
      Outcome.returned (uint32 a, none) t

/-- Local `vertexData` of `LoadTriangle`. -/
def LoadTriangle.vertexData : List float64 :=
  [0.0, 0.8, 0.0,
   -0.8, -0.8, 0.0,
   0.8, -0.8, 0.0]

/-- Function `LoadTriangle` of `main.go`, run after the calls `t`; `s` is the
state the pointer argument refers to, returned as the function leaves it. -/
def LoadTriangle (W : World) (p : program) (s : state) (t : List Call) : Outcome (state × error) :=
  let vertexData := LoadTriangle.vertexData
  let t := t ++ [Call.GenVertexArrays 1]
  let s := { s with vao := uint32 (W.result t) }
  let t := t ++ [Call.BindVertexArray s.vao]
  let t := t ++ [Call.GenBuffers 1]
  let s := { s with vbo := uint32 (W.result t) }
  let t := t ++ [Call.BindBuffer gl.ARRAY_BUFFER s.vbo]
  let t := t ++ [Call.BufferData gl.ARRAY_BUFFER (vertexData.length * 4) vertexData gl.STATIC_DRAW]
  match program.attr W p "vert" t with
  | Outcome.panicked t => Outcome.panicked t
  | Outcome.returned (_, some err) t => Outcome.returned (s, some err) t
  | Outcome.returned (vertAttrib, none) t =>
    let t := t ++ [Call.EnableVertexAttribArray vertAttrib]
    let t := t ++ [Call.VertexAttribPointer vertAttrib 3 gl.FLOAT false 0 0]
    let t := t ++ [Call.BindBuffer gl.ARRAY_BUFFER 0]
    let t := t ++ [Call.BindVertexArray 0]
    Outcome.returned (s, none) t

/-- Function `setupScene` of `main.go`, run after the calls `t`. -/
def setupScene (t : List Call) : List Call :=
  let t := t ++ [Call.Enable gl.DEPTH_TEST]
  let t := t ++ [Call.DepthFunc gl.LESS]
  let t := t ++ [Call.ClearColor 0.5 0.5 0.5 1.0]
  t

/-- The GLFW window, as far as the program looks at it: its should-close flag. -/
structure Window where
  shouldClose : Bool
  deriving DecidableEq

/-- Method `SetShouldClose` of the window. -/
def Window.SetShouldClose (window : Window) (value : Bool) (t : List Call) : Window × List Call :=
  ({ window with shouldClose := value }, t ++ [Call.SetShouldClose value])

/-- Method `SwapBuffers` of the window. -/
def Window.SwapBuffers (window : Window) (t : List Call) : Window × List Call :=
  (window, t ++ [Call.SwapBuffers])

/-- Function `drawScene` of `main.go`, run after the calls `t`; the window and
the state behind the two pointer arguments are returned as the function
leaves them. -/
def drawScene (window : Window) (p : program) (s : state) (t : List Call) :
    Window × state × List Call :=
  let t := t ++ [Call.Clear (gl.COLOR_BUFFER_BIT ||| gl.DEPTH_BUFFER_BIT)]
  let t := t ++ [Call.UseProgram p]
  let t := t ++ [Call.BindVertexArray s.vao]
  let t := t ++ [Call.DrawArrays gl.TRIANGLES 0 3]
  let t := t ++ [Call.BindVertexArray 0]
  let t := t ++ [Call.UseProgram 0]
  let (window, t) := window.SwapBuffers t
  (window, s, t)

/-- Function `keyCallback` of `main.go`, run after the calls `t`. -/
def keyCallback (window : Window) (key : Int) (_scancode : Int) (_action : Int) (_mods : Int)
    (t : List Call) : Window × List Call :=
  if key = glfw.KeyEscape then
    window.SetShouldClose true t
  else
    (window, t)

/-! ## The part of the OpenGL context the calls act on -/

/-- The context state the program's calls select: the program in use, the
bound vertex array, the buffer bound to `ARRAY_BUFFER`, and which shader is
attached to which program. -/
structure Context where
  currentProgram : Nat
  vertexArray : Nat
  arrayBuffer : Nat
  attached : List (Nat × Nat)

/-- Effect of one call on the context, after the OpenGL specification:
`UseProgram`, `BindVertexArray` and `BindBuffer` select their argument,
`AttachShader` attaches a shader that is not attached yet, `DetachShader`
detaches it, `DeleteProgram` detaches every shader of the program. -/
def Context.apply (c : Context) : Call → Context
  | Call.UseProgram p => { c with currentProgram := p }
  | Call.BindVertexArray a => { c with vertexArray := a }
  | Call.BindBuffer target b => if target = gl.ARRAY_BUFFER then { c with arrayBuffer := b } else c
  | Call.AttachShader p s =>
    if (p, s) ∈ c.attached then c else { c with attached := (p, s) :: c.attached }
  | Call.DetachShader p s => { c with attached := c.attached.filter (fun x => x ≠ (p, s)) }
  | Call.DeleteProgram p => { c with attached := c.attached.filter (fun x => x.1 ≠ p) }
  | _ => c

/-- The context after a sequence of calls. -/
def Context.after (c : Context) (calls : List Call) : Context :=
  calls.foldl Context.apply c

/-! ## `main` -/

def windowWidth : Int := 800
def windowHeight : Int := 600

/-- One statement of `main` that calls out of it: a library call, a call of a
function of `main.go`, or a log line (`logPrintln` is
`log.Println(label, gl.GoStr(gl.GetString(name)))`). -/
inductive Step
  | glfwInit
  | WindowHint (target : Nat) (hint : Int)
  | CreateWindow (width height : Int) (title : String)
  | MakeContextCurrent
  | SetKeyCallback
  | glInit
  | logPrintln (label : String) (name : Nat)
  | compileShader (source : String) (shaderType : Nat)
  | newProgram (shaders : List Nat)
  | LoadTriangle (p : program)
  | setupScene
  | ShouldClose
  | drawScene (p : program) (s : state)
  | PollEvents
  | DeleteShader (shader : Nat)
  | Terminate
  | logFatalln (label : String) (err : String)
  deriving DecidableEq

/-- What GLFW and the GL loader give back in one run: the errors of
`glfw.Init`, `glfw.CreateWindow` and `gl.Init`, the window `CreateWindow`
yields, and for every `k` whether the window's should-close flag is set when
the `k`-th `glfw.PollEvents` (counted from 0) is back. -/
structure Results where
  glfwInit : error
  createWindow : Window × error
  glInit : error
  pollEvents : Nat → Bool

/-- How a run of `main` ends: it returned; it left through `log.Fatalln`
(`os.Exit(1)`, deferred calls do not run); a function it called panicked (the
deferred calls run, then the program crashes); or it is still in its loop. -/
inductive Exit
  | returned
  | fatal
  | panicked
  | running
  deriving DecidableEq

/-- A run of `main`: the statements performed, in order; the OpenGL calls of
the bootstrap (up to `setupScene`), which are the history the driver answers
to; and how the run ended. -/
structure Run where
  steps : List Step
  gl : List Call
  exit : Exit

/-- The loop `for !w.ShouldClose() { drawScene(w, p, s); glfw.PollEvents() }`
of `main`, with fuel for at most `fuel` tests of the flag: the statements
performed and whether the loop was left.  `polls k` is the flag after the
`k`-th `PollEvents` from here. -/
def main.loop (p : program) (s : state) : Nat → Window → (Nat → Bool) → List Step × Bool
  | 0, _, _ => ([], false)
  | fuel + 1, w, polls =>
    if w.shouldClose then
      ([Step.ShouldClose], true)
    else
      let w := { w with shouldClose := polls 0 }
      let (rest, left) := main.loop p s fuel w (fun k => polls (k + 1))
      (Step.ShouldClose :: Step.drawScene p s :: Step.PollEvents :: rest, left)

/-- Function `main` of `main.go`.  `defers` is the stack of deferred calls,
run last-in first-out when `main` returns or when a function it called
panics; `t` is the history of OpenGL calls. -/
def main (W : World) (r : Results) (fuel : Nat) : Run :=
  let t : List Call := []
  let steps := [Step.glfwInit]
  match r.glfwInit with
  | some err => ⟨steps ++ [Step.logFatalln "[E] Failed to initialize glfw:" err], t, Exit.fatal⟩
  | none =>
  let defers := [Step.Terminate]
  let steps := steps ++ [Step.WindowHint glfw.Resizable glfw.True]
  let steps := steps ++ [Step.WindowHint glfw.ContextVersionMajor 4]
  let steps := steps ++ [Step.WindowHint glfw.ContextVersionMinor 1]
  let steps := steps ++ [Step.WindowHint glfw.OpenGLProfile glfw.OpenGLCoreProfile]
  let steps := steps ++ [Step.WindowHint glfw.OpenGLForwardCompatible glfw.True]
  let steps := steps ++ [Step.CreateWindow windowWidth windowHeight "Elevated"]
  match r.createWindow with
  | (_, some err) =>
    ⟨steps ++ [Step.logFatalln "[E] Failed to create window:" err], t, Exit.fatal⟩
  | (w, none) =>
  let steps := steps ++ [Step.MakeContextCurrent]
  let steps := steps ++ [Step.SetKeyCallback]
  let steps := steps ++ [Step.glInit]
  match r.glInit with
  | some err => ⟨steps ++ [Step.logFatalln "[E] Failed to initialize glow:" err], t, Exit.fatal⟩
  | none =>
  let steps := steps ++ [Step.logPrintln "[I] OpenGL version:" gl.VERSION]
  let t := t ++ [Call.GetString gl.VERSION]
  let steps := steps ++ [Step.logPrintln "[I] GLSL version:" gl.SHADING_LANGUAGE_VERSION]
  let t := t ++ [Call.GetString gl.SHADING_LANGUAGE_VERSION]
  let steps := steps ++ [Step.logPrintln "[I] Vendor:" gl.VENDOR]
  let t := t ++ [Call.GetString gl.VENDOR]
  let steps := steps ++ [Step.logPrintln "[I] Renderer:" gl.RENDERER]
  let t := t ++ [Call.GetString gl.RENDERER]
  let steps := steps ++ [Step.compileShader vertexShaderSource gl.VERTEX_SHADER]
  match compileShader W vertexShaderSource gl.VERTEX_SHADER t with
  | Outcome.panicked t => ⟨steps ++ defers, t, Exit.panicked⟩
  | Outcome.returned (_, some err) t =>
    ⟨steps ++ [Step.logFatalln "[E] Failed to compile shader:" err], t, Exit.fatal⟩
  | Outcome.returned (vertexShader, none) t =>
  let defers := Step.DeleteShader vertexShader :: defers
  let steps := steps ++ [Step.compileShader fragmentShaderSource gl.FRAGMENT_SHADER]
  match compileShader W fragmentShaderSource gl.FRAGMENT_SHADER t with
  | Outcome.panicked t => ⟨steps ++ defers, t, Exit.panicked⟩
  | Outcome.returned (_, some err) t =>
    ⟨steps ++ [Step.logFatalln "[E] Failed to compile shader:" err], t, Exit.fatal⟩
  | Outcome.returned (fragmentShader, none) t =>
  let defers := Step.DeleteShader fragmentShader :: defers
  let steps := steps ++ [Step.newProgram [vertexShader, fragmentShader]]
  match newProgram W [vertexShader, fragmentShader] t with
  | Outcome.panicked t => ⟨steps ++ defers, t, Exit.panicked⟩
  | Outcome.returned (_, some err) t =>
    ⟨steps ++ [Step.logFatalln "[E] Failed to create program:" err], t, Exit.fatal⟩
  | Outcome.returned (p, none) t =>
  let s : state := ⟨0, 0⟩
  let steps := steps ++ [Step.LoadTriangle p]
  match LoadTriangle W p s t with
  | Outcome.panicked t => ⟨steps ++ defers, t, Exit.panicked⟩
  | Outcome.returned (_, some err) t =>
    ⟨steps ++ [Step.logFatalln "[E] Failed to load triangle:" err], t, Exit.fatal⟩
  | Outcome.returned (s, none) t =>
  let steps := steps ++ [Step.setupScene]
  let t := setupScene t
  match main.loop p s fuel w r.pollEvents with
  | (frames, false) => ⟨steps ++ frames, t, Exit.running⟩
  | (frames, true) => ⟨steps ++ frames ++ defers, t, Exit.returned⟩

/-! ## Spec-side names for what the functions read back -/

/-- A string of `k` NUL bytes. -/
def nulls (k : Nat) : String := ⟨List.replicate k NUL⟩

/-- A result of a function returning `(value, error)` that is a return with a
non-nil error. -/
def Outcome.failed {α : Type} : Outcome (α × error) → Bool
  | Outcome.returned (_, some _) _ => true
  | _ => false

/-- The calls an outcome carries. -/
def Outcome.calls {α : Type} : Outcome α → List Call
  | Outcome.returned _ t => t
  | Outcome.panicked t => t

/-- The handle `gl.CreateShader` returns to `compileShader`. -/
def compileShader.shader (W : World) (shaderType : Nat) (t : List Call) : Nat :=
  uint32 (W.result (t ++ [Call.CreateShader shaderType]))

/-- The calls of `compileShader` up to and including the query of the compile status. -/
def compileShader.compile (W : World) (source : String) (shaderType : Nat) (t : List Call) :
    List Call :=
  t ++ [Call.CreateShader shaderType,
        Call.ShaderSource (compileShader.shader W shaderType t) 1 [source],
        Call.CompileShader (compileShader.shader W shaderType t),
        Call.GetShaderiv (compileShader.shader W shaderType t) gl.COMPILE_STATUS]

/-- The compile status `compileShader` reads back. -/
def compileShader.status (W : World) (source : String) (shaderType : Nat) (t : List Call) : Int :=
  int32 (W.result (compileShader.compile W source shaderType t))

/-- The info-log length `compileShader` reads back after a failed compilation. -/
def compileShader.logLength (W : World) (source : String) (shaderType : Nat) (t : List Call) :
    Int :=
  int32 (W.result (compileShader.compile W source shaderType t ++
    [Call.GetShaderiv (compileShader.shader W shaderType t) gl.INFO_LOG_LENGTH]))

/-- The handle `gl.CreateProgram` returns to `newProgram`. -/
def newProgram.program (W : World) (t : List Call) : Nat :=
  uint32 (W.result (t ++ [Call.CreateProgram]))

/-- The calls of `newProgram` on a non-empty list up to and including the
query of the link status: create, attach each shader, link, detach each
shader, query. -/
def newProgram.link (W : World) (shaders : List Nat) (t : List Call) : List Call :=
  t ++ [Call.CreateProgram] ++ shaders.map (Call.AttachShader (newProgram.program W t)) ++
    [Call.LinkProgram (newProgram.program W t)] ++
    shaders.map (Call.DetachShader (newProgram.program W t)) ++
    [Call.GetProgramiv (newProgram.program W t) gl.LINK_STATUS]

/-- The link status `newProgram` reads back. -/
def newProgram.status (W : World) (shaders : List Nat) (t : List Call) : Int :=
  int32 (W.result (newProgram.link W shaders t))

/-- The info-log length `newProgram` reads back after a failed link. -/
def newProgram.logLength (W : World) (shaders : List Nat) (t : List Call) : Int :=
  int32 (W.result (newProgram.link W shaders t ++
    [Call.GetProgramiv (newProgram.program W t) gl.INFO_LOG_LENGTH]))

/-- The vertex-array name `gl.GenVertexArrays` stores for `LoadTriangle`. -/
def LoadTriangle.vao (W : World) (t : List Call) : Nat :=
  uint32 (W.result (t ++ [Call.GenVertexArrays 1]))

/-- The buffer name `gl.GenBuffers` stores for `LoadTriangle`. -/
def LoadTriangle.vbo (W : World) (t : List Call) : Nat :=
  uint32 (W.result (t ++ [Call.GenVertexArrays 1, Call.BindVertexArray (LoadTriangle.vao W t),
    Call.GenBuffers 1]))

/-- The calls of `LoadTriangle` up to and including the attribute lookup. -/
def LoadTriangle.upload (W : World) (p : program) (t : List Call) : List Call :=
  t ++ [Call.GenVertexArrays 1, Call.BindVertexArray (LoadTriangle.vao W t),
        Call.GenBuffers 1, Call.BindBuffer gl.ARRAY_BUFFER (LoadTriangle.vbo W t),
        Call.BufferData gl.ARRAY_BUFFER (LoadTriangle.vertexData.length * 4)
          LoadTriangle.vertexData gl.STATIC_DRAW,
        Call.GetAttribLocation p "vert\x00"]

/-- The location `gl.GetAttribLocation(p, "vert")` returns to `LoadTriangle`. -/
def LoadTriangle.location (W : World) (p : program) (t : List Call) : Int :=
  int32 (W.result (LoadTriangle.upload W p t))

/-- A call that changes which shaders a program holds or links it. -/
def Call.isAttachLinkDetach : Call → Bool
  | Call.AttachShader _ _ => true
  | Call.LinkProgram _ => true
  | Call.DetachShader _ _ => true
  | _ => false

/-- The statements of `k` iterations of the loop of `main`: test the flag,
draw one frame, poll the events. -/
def main.frames (p : program) (s : state) (k : Nat) : List Step :=
  (List.replicate k [Step.ShouldClose, Step.drawScene p s, Step.PollEvents]).flatten

/-- The value of a returned outcome, `default` for a panic. -/
def Outcome.value {α : Type} (default : α) : Outcome (α × error) → α
  | Outcome.returned (v, _) _ => v
  | Outcome.panicked _ => default

/-- How a fallible step ended. -/
inductive Status
  | ok
  | failed (err : String)
  | panicked
  deriving DecidableEq

/-- The status of a library call that returns an `error`. -/
def Status.ofError : error → Status
  | none => Status.ok
  | some err => Status.failed err

/-- The status of a call of a function of `main.go`. -/
def Outcome.status {α : Type} : Outcome (α × error) → Status
  | Outcome.returned (_, none) _ => Status.ok
  | Outcome.returned (_, some err) _ => Status.failed err
  | Outcome.panicked _ => Status.panicked

/-- The OpenGL calls of the four log lines of `main`. -/
def main.infoCalls : List Call :=
  [Call.GetString gl.VERSION, Call.GetString gl.SHADING_LANGUAGE_VERSION,
   Call.GetString gl.VENDOR, Call.GetString gl.RENDERER]

/-- The call `compileShader(vertexShaderSource, gl.VERTEX_SHADER)` of `main`. -/
def main.vertexShader (W : World) : Outcome (Nat × error) :=
  compileShader W vertexShaderSource gl.VERTEX_SHADER main.infoCalls

/-- The call `compileShader(fragmentShaderSource, gl.FRAGMENT_SHADER)` of `main`. -/
def main.fragmentShader (W : World) : Outcome (Nat × error) :=
  compileShader W fragmentShaderSource gl.FRAGMENT_SHADER (main.vertexShader W).calls

/-- The call `newProgram(vertexShader, fragmentShader)` of `main`. -/
def main.shaderProgram (W : World) : Outcome (program × error) :=
  newProgram W [(main.vertexShader W).value 0, (main.fragmentShader W).value 0]
    (main.fragmentShader W).calls

/-- The call `LoadTriangle(p, s)` of `main`. -/
def main.triangle (W : World) : Outcome (state × error) :=
  LoadTriangle W ((main.shaderProgram W).value 0) ⟨0, 0⟩ (main.shaderProgram W).calls

/-- The statements of `main` before its loop, log lines left out. -/
def main.bootstrap (W : World) : List Step :=
  [Step.glfwInit,
   Step.WindowHint glfw.Resizable glfw.True,
   Step.WindowHint glfw.ContextVersionMajor 4,
   Step.WindowHint glfw.ContextVersionMinor 1,
   Step.WindowHint glfw.OpenGLProfile glfw.OpenGLCoreProfile,
   Step.WindowHint glfw.OpenGLForwardCompatible glfw.True,
   Step.CreateWindow 800 600 "Elevated",
   Step.MakeContextCurrent,
   Step.SetKeyCallback,
   Step.glInit,
   Step.compileShader vertexShaderSource gl.VERTEX_SHADER,
   Step.compileShader fragmentShaderSource gl.FRAGMENT_SHADER,
   Step.newProgram [(main.vertexShader W).value 0, (main.fragmentShader W).value 0],
   Step.LoadTriangle ((main.shaderProgram W).value 0),
   Step.setupScene]

/-- The release of resources when `main` returns. -/
def main.release (W : World) : List Step :=
  [Step.DeleteShader ((main.fragmentShader W).value 0),
   Step.DeleteShader ((main.vertexShader W).value 0),
   Step.Terminate]

/-- A log line. -/
def Step.isLog : Step → Bool
  | Step.logPrintln _ _ => true
  | Step.logFatalln _ _ => true
  | _ => false

/-- The statements of a run that are not log lines. -/
def Run.calls (run : Run) : List Step :=
  run.steps.filter (fun x => !x.isLog)

/-- One fallible step of `main`: the number of statements of `main.bootstrap`
performed once the step is done, the label `main` logs when it fails, how it
ended in this run, the deferred calls registered before it (in the order they
run), and the OpenGL calls made once it is done. -/
structure Fallible where
  done : Nat
  label : String
  status : Status
  deferred : List Step
  gl : List Call
  deriving DecidableEq

/-- The seven fallible steps of `main` in the order it performs them. -/
def main.fallible (W : World) (r : Results) : List Fallible :=
  [⟨1, "[E] Failed to initialize glfw:", Status.ofError r.glfwInit, [], []⟩,
   ⟨7, "[E] Failed to create window:", Status.ofError r.createWindow.2, [Step.Terminate], []⟩,
   ⟨10, "[E] Failed to initialize glow:", Status.ofError r.glInit, [Step.Terminate], []⟩,
   ⟨11, "[E] Failed to compile shader:", (main.vertexShader W).status, [Step.Terminate],
     (main.vertexShader W).calls⟩,
   ⟨12, "[E] Failed to compile shader:", (main.fragmentShader W).status,
     [Step.DeleteShader ((main.vertexShader W).value 0), Step.Terminate],
     (main.fragmentShader W).calls⟩,
   ⟨13, "[E] Failed to create program:", (main.shaderProgram W).status, main.release W,
     (main.shaderProgram W).calls⟩,
   ⟨14, "[E] Failed to load triangle:", (main.triangle W).status, main.release W,
     (main.triangle W).calls⟩]

/-- The first fallible step of `main` that does not succeed, if any. -/
def main.firstFailure (W : World) (r : Results) : Option Fallible :=
  (main.fallible W r).find? (fun f => decide (f.status ≠ Status.ok))

/-- The strings a call hands to the binding as C strings. -/
def Call.cstrings : Call → List String
  | Call.ShaderSource _ _ sources => sources
  | Call.GetShaderInfoLog _ _ infoLog => [infoLog]
  | Call.GetProgramInfoLog _ _ infoLog => [infoLog]
  | Call.GetAttribLocation _ name => [name]
  | _ => []

/-- Every C string of every call ends in NUL. -/
def NULterminated (calls : List Call) : Prop :=
  ∀ call ∈ calls, ∀ s ∈ call.cstrings, endsInNUL s = true

/-- GLFW and the GL loader succeed, the window starts with the given flag,
and the flag after each `PollEvents` is given by `polls`. -/
def smoothRun (flag : Bool) (polls : Nat → Bool) : Results where
  glfwInit := none
  createWindow := (⟨flag⟩, none)
  glInit := none
  pollEvents := polls

/-! ## Concrete drivers -/

/-- A driver that answers 1 to everything: every handle is 1, every status is
success, every attribute sits at location 1. -/
def agreeableDriver : World where
  result := fun _ => 1
  written := fun _ => ""

/-- A driver that reports failure (0) for every status query, with an info log
of `logLength` bytes, and answers 1 to everything else. -/
def failingDriver (logLength : Int) : World where
  result := fun calls =>
    match calls.getLast? with
    | some (Call.GetShaderiv _ pname) => if pname = gl.INFO_LOG_LENGTH then logLength else 0
    | some (Call.GetProgramiv _ pname) => if pname = gl.INFO_LOG_LENGTH then logLength else 0
    | _ => 1
  written := fun _ => "error"

/-- A driver that compiles the vertex shader (handle 1), reports a failed
compilation of the fragment shader (handle 2) with an info log of `logLength`
bytes, and answers 1 to everything else. -/
def fragmentFailingDriver (logLength : Int) : World where
  result := fun calls =>
    match calls.getLast? with
    | some (Call.CreateShader shaderType) => if shaderType = gl.VERTEX_SHADER then 1 else 2
    | some (Call.GetShaderiv shader pname) =>
      if shader = 1 then 1 else if pname = gl.INFO_LOG_LENGTH then logLength else 0
    | _ => 1
  written := fun _ => "syntax error"

/-- A driver that answers -2 to `GetAttribLocation` and 1 to everything else. -/
def strayLocationDriver : World where
  result := fun calls =>
    match calls.getLast? with
    | some (Call.GetAttribLocation _ _) => -2
    | _ => 1
  written := fun _ => ""

/-! ## Lemmas on machine integers and NUL-terminated strings -/

theorem int32_of_range {x : Int} (h1 : -2 ^ 31 ≤ x) (h2 : x < 2 ^ 31) : int32 x = x := by
  unfold int32
  omega

theorem int32_bounds (x : Int) : -2 ^ 31 ≤ int32 x ∧ int32 x < 2 ^ 31 := by
  unfold int32
  omega

theorem int32_succ_max : int32 (2 ^ 31 - 1 + 1) = -2 ^ 31 := by
  unfold int32
  omega

theorem Repeat_NUL {k : Int} (h : 0 ≤ k) : strings.Repeat "\x00" k = some (nulls k.toNat) := by
  have hd : ("\x00" : String).data = [NUL] := rfl
  unfold strings.Repeat nulls
  rw [if_neg (by omega), hd, List.flatten_replicate_singleton]

theorem Repeat_negative (s : String) {k : Int} (h : k < 0) : strings.Repeat s k = none := by
  unfold strings.Repeat
  rw [if_pos h]

theorem endsInNUL_nulls (k : Nat) : endsInNUL (nulls (k + 1)) = true := by
  unfold endsInNUL nulls
  simp [List.getLast?_replicate]

theorem Str_nulls {k : Nat} (h : 0 < k) : gl.Str (nulls k) = some (nulls k) := by
  obtain ⟨j, rfl⟩ : ∃ j, k = j + 1 := ⟨k - 1, by omega⟩
  unfold gl.Str
  rw [if_pos (endsInNUL_nulls j)]

theorem Str_empty : gl.Str (nulls 0) = none := by
  decide

theorem endsInNUL_append_NUL (s : String) : endsInNUL (s ++ "\x00") = true := by
  have hd : ("\x00" : String).data = [NUL] := rfl
  unfold endsInNUL
  rw [String.data_append, hd, List.getLast?_concat]
  rfl

/-- The info-log buffer of `compileShader` and `newProgram` for a reported
length in `[0, 2^31 - 1)`: `logLength + 1` NUL bytes, which `gl.Str` accepts. -/
theorem infoLog_buffer {n : Int} (h0 : 0 ≤ n) (h1 : n < 2 ^ 31 - 1) :
    strings.Repeat "\x00" (int32 (n + 1)) = some (nulls (n + 1).toNat) ∧
      gl.Str (nulls (n + 1).toNat) = some (nulls (n + 1).toNat) := by
  rw [int32_of_range (by omega) (by omega)]
  exact ⟨Repeat_NUL (by omega), Str_nulls (by omega)⟩

/-- The same buffer for a reported length outside `[0, 2^31 - 1)`: building it
or handing it to `gl.Str` panics. -/
theorem infoLog_buffer_panics (x : Int) (h : int32 x < 0 ∨ int32 x = 2 ^ 31 - 1) :
    (strings.Repeat "\x00" (int32 (int32 x + 1))).bind gl.Str = none := by
  have hb := int32_bounds x
  by_cases hm : int32 x = -1
  · rw [hm]
    decide
  · have hneg : int32 (int32 x + 1) < 0 := by
      rcases h with h | h
      · rw [int32_of_range (by omega) (by omega)]
        omega
      · rw [h, int32_succ_max]
        omega
    rw [Repeat_negative _ hneg]
    rfl

/-- The body of `compileShader` in terms of what it reads back. -/
theorem compileShader_unfold (W : World) (source : String) (shaderType : Nat) (t : List Call) :
    compileShader W source shaderType t =
      if compileShader.status W source shaderType t = gl.FALSE then
        match strings.Repeat "\x00" (int32 (compileShader.logLength W source shaderType t + 1)) with
        | none => Outcome.panicked (compileShader.compile W source shaderType t ++
            [Call.GetShaderiv (compileShader.shader W shaderType t) gl.INFO_LOG_LENGTH])
        | some log =>
          match gl.Str log with
          | none => Outcome.panicked (compileShader.compile W source shaderType t ++
              [Call.GetShaderiv (compileShader.shader W shaderType t) gl.INFO_LOG_LENGTH])
          | some buf =>
            Outcome.returned (0, some ("failed to compile " ++ source ++ ": " ++
                W.written (compileShader.compile W source shaderType t ++
                  [Call.GetShaderiv (compileShader.shader W shaderType t) gl.INFO_LOG_LENGTH,
                   Call.GetShaderInfoLog (compileShader.shader W shaderType t)
                     (compileShader.logLength W source shaderType t) buf])))
              (compileShader.compile W source shaderType t ++
                [Call.GetShaderiv (compileShader.shader W shaderType t) gl.INFO_LOG_LENGTH,
                 Call.GetShaderInfoLog (compileShader.shader W shaderType t)
                   (compileShader.logLength W source shaderType t) buf,
                 Call.DeleteShader (compileShader.shader W shaderType t)])
      else
        Outcome.returned (compileShader.shader W shaderType t, none)
          (compileShader.compile W source shaderType t) := by
  unfold compileShader compileShader.status compileShader.logLength compileShader.compile
    compileShader.shader
  simp only [gl.Strs, List.append_assoc, List.singleton_append, List.cons_append,
    List.nil_append]

/-- A failed compilation with a reported log length in `[0, 2^31 - 1)`. -/
theorem compileShader_of_failed (W : World) (source : String) (shaderType : Nat) (t : List Call) :
    compileShader.status W source shaderType t = gl.FALSE →
      0 ≤ compileShader.logLength W source shaderType t →
      compileShader.logLength W source shaderType t < 2 ^ 31 - 1 →
      ∃ msg, compileShader W source shaderType t =
        Outcome.returned (0, some msg)
          (compileShader.compile W source shaderType t ++
            [Call.GetShaderiv (compileShader.shader W shaderType t) gl.INFO_LOG_LENGTH,
             Call.GetShaderInfoLog (compileShader.shader W shaderType t)
               (compileShader.logLength W source shaderType t)
               (nulls (compileShader.logLength W source shaderType t + 1).toNat),
             Call.DeleteShader (compileShader.shader W shaderType t)]) := by
  intro hs h0 h1
  obtain ⟨hrep, hstr⟩ := infoLog_buffer h0 h1
  rw [compileShader_unfold, if_pos hs]
  simp only [hrep, hstr]
  exact ⟨_, rfl⟩

/-- C5 (amended): `compileShader`, with the compile status and the info-log
length it reads back.  If the status is not `gl.FALSE` it returns the handle
from `gl.CreateShader` with a nil error after its four calls, none of them a
`DeleteShader`.  If the status is `gl.FALSE` and the reported log length lies in
`[0, 2^31 - 1)` it fetches the log into a buffer of `logLength + 1` NUL bytes,
calls `gl.DeleteShader` on the shader it created and returns handle 0 with a
non-nil error; so for such log lengths it returns an error exactly when the
status is `gl.FALSE`.  For a status `gl.FALSE` with a log length outside that
range it panics before `GetShaderInfoLog` and `DeleteShader`. -/
theorem compileShader_error_iff_status (W : World) (source : String) (shaderType : Nat)
    (t : List Call) :
    (compileShader.status W source shaderType t ≠ gl.FALSE →
      compileShader W source shaderType t =
        Outcome.returned (compileShader.shader W shaderType t, none)
          (compileShader.compile W source shaderType t)) ∧
    (compileShader.status W source shaderType t = gl.FALSE →
      0 ≤ compileShader.logLength W source shaderType t →
      compileShader.logLength W source shaderType t < 2 ^ 31 - 1 →
      ∃ msg, compileShader W source shaderType t =
        Outcome.returned (0, some msg)
          (compileShader.compile W source shaderType t ++
            [Call.GetShaderiv (compileShader.shader W shaderType t) gl.INFO_LOG_LENGTH,
             Call.GetShaderInfoLog (compileShader.shader W shaderType t)
               (compileShader.logLength W source shaderType t)
               (nulls (compileShader.logLength W source shaderType t + 1).toNat),
             Call.DeleteShader (compileShader.shader W shaderType t)])) ∧
    (compileShader.status W source shaderType t ≠ gl.FALSE ∨
        (0 ≤ compileShader.logLength W source shaderType t ∧
          compileShader.logLength W source shaderType t < 2 ^ 31 - 1) →
      ((compileShader W source shaderType t).failed = true ↔
        compileShader.status W source shaderType t = gl.FALSE)) ∧
    (compileShader.status W source shaderType t = gl.FALSE →
      (compileShader.logLength W source shaderType t < 0 ∨
        compileShader.logLength W source shaderType t = 2 ^ 31 - 1) →
      compileShader W source shaderType t =
        Outcome.panicked (compileShader.compile W source shaderType t ++
          [Call.GetShaderiv (compileShader.shader W shaderType t) gl.INFO_LOG_LENGTH])) := by
  have hok : compileShader.status W source shaderType t ≠ gl.FALSE →
      compileShader W source shaderType t =
        Outcome.returned (compileShader.shader W shaderType t, none)
          (compileShader.compile W source shaderType t) := by
    intro hs
    rw [compileShader_unfold, if_neg hs]
  have hfail := compileShader_of_failed W source shaderType t
  refine ⟨hok, hfail, ?_, ?_⟩
  · intro h
    by_cases hs : compileShader.status W source shaderType t = gl.FALSE
    · obtain ⟨msg, hm⟩ := hfail hs (h.resolve_left (not_not.mpr hs)).1
        (h.resolve_left (not_not.mpr hs)).2
      simp [hm, hs, Outcome.failed]
    · simp [hok hs, hs, Outcome.failed]
  · intro hs hout
    have hp := infoLog_buffer_panics _ hout
    rw [compileShader_unfold, if_pos hs]
    cases hrep : strings.Repeat "\x00"
        (int32 (compileShader.logLength W source shaderType t + 1)) with
    | none => rfl
    | some log =>
      unfold compileShader.logLength at hrep
      rw [hrep] at hp
      simp only [Option.bind] at hp
      simp only [hp]

/-- C5, witness: a driver that reports success, and one that reports failure
with an info log of 5 bytes. -/
theorem compileShader_error_iff_status_witness :
    compileShader agreeableDriver "" gl.VERTEX_SHADER [] =
        Outcome.returned (1, none)
          [Call.CreateShader gl.VERTEX_SHADER, Call.ShaderSource 1 1 [""],
           Call.CompileShader 1, Call.GetShaderiv 1 gl.COMPILE_STATUS] ∧
      (∃ msg, compileShader (failingDriver 5) "" gl.VERTEX_SHADER [] =
        Outcome.returned (0, some msg)
          [Call.CreateShader gl.VERTEX_SHADER, Call.ShaderSource 1 1 [""],
           Call.CompileShader 1, Call.GetShaderiv 1 gl.COMPILE_STATUS,
           Call.GetShaderiv 1 gl.INFO_LOG_LENGTH, Call.GetShaderInfoLog 1 5 (nulls 6),
           Call.DeleteShader 1]) ∧
      ((compileShader (failingDriver 5) "" gl.VERTEX_SHADER []).failed = true ↔
        compileShader.status (failingDriver 5) "" gl.VERTEX_SHADER [] = gl.FALSE) :=
  ⟨(compileShader_error_iff_status agreeableDriver "" gl.VERTEX_SHADER []).1 (by decide),
   (compileShader_error_iff_status (failingDriver 5) "" gl.VERTEX_SHADER []).2.1
     (by decide) (by decide) (by decide),
   (compileShader_error_iff_status (failingDriver 5) "" gl.VERTEX_SHADER []).2.2.1
     (Or.inr ⟨by decide, by decide⟩)⟩

/-- C5, counterexample: the driver reports a failed compilation and an info
log of 2^31 - 1 bytes.  The compile status `compileShader` reads back is
`gl.FALSE`, yet it does not return an error: `logLength + 1` wraps to -2^31,
`strings.Repeat` panics, and the shader is not deleted. -/
theorem compileShader_huge_log_panics :
    compileShader.status (failingDriver 2147483647) "" gl.VERTEX_SHADER [] = gl.FALSE ∧
      compileShader (failingDriver 2147483647) "" gl.VERTEX_SHADER [] =
        Outcome.panicked
          [Call.CreateShader gl.VERTEX_SHADER, Call.ShaderSource 1 1 [""],
           Call.CompileShader 1, Call.GetShaderiv 1 gl.COMPILE_STATUS,
           Call.GetShaderiv 1 gl.INFO_LOG_LENGTH] ∧
      ¬ ((compileShader (failingDriver 2147483647) "" gl.VERTEX_SHADER []).failed = true ↔
        compileShader.status (failingDriver 2147483647) "" gl.VERTEX_SHADER [] = gl.FALSE) := by
  decide

/-! ## `newProgram` -/

theorem foldl_append_singleton {α β : Type} (f : α → β) (l : List α) (t : List β) :
    l.foldl (fun t x => t ++ [f x]) t = t ++ l.map f := by
  induction l generalizing t with
  | nil => simp
  | cons x xs ih => simp [ih]

/-- The body of `newProgram` on a non-empty list in terms of what it reads back. -/
theorem newProgram_unfold (W : World) (shaders : List Nat) (t : List Call) (h : shaders ≠ []) :
    newProgram W shaders t =
      if newProgram.status W shaders t = gl.FALSE then
        match strings.Repeat "\x00" (int32 (newProgram.logLength W shaders t + 1)) with
        | none => Outcome.panicked (newProgram.link W shaders t ++
            [Call.GetProgramiv (newProgram.program W t) gl.INFO_LOG_LENGTH])
        | some log =>
          match gl.Str log with
          | none => Outcome.panicked (newProgram.link W shaders t ++
              [Call.GetProgramiv (newProgram.program W t) gl.INFO_LOG_LENGTH])
          | some buf =>
            Outcome.returned (0, some ("failed to link program: " ++
                W.written (newProgram.link W shaders t ++
                  [Call.GetProgramiv (newProgram.program W t) gl.INFO_LOG_LENGTH,
                   Call.GetProgramInfoLog (newProgram.program W t)
                     (newProgram.logLength W shaders t) buf])))
              (newProgram.link W shaders t ++
                [Call.GetProgramiv (newProgram.program W t) gl.INFO_LOG_LENGTH,
                 Call.GetProgramInfoLog (newProgram.program W t)
                   (newProgram.logLength W shaders t) buf,
                 Call.DeleteProgram (newProgram.program W t)])
      else
        Outcome.returned (newProgram.program W t, none) (newProgram.link W shaders t) := by
  have hlen : ¬ shaders.length = 0 := by
    intro h0
    exact h (List.length_eq_zero.mp h0)
  unfold newProgram newProgram.status newProgram.logLength newProgram.link newProgram.program
  rw [if_neg hlen]
  simp only [foldl_append_singleton, List.append_assoc, List.singleton_append, List.cons_append,
    List.nil_append]

/-- A failed link with a reported log length in `[0, 2^31 - 1)`. -/
theorem newProgram_of_failed (W : World) (shaders : List Nat) (t : List Call) :
    shaders ≠ [] → newProgram.status W shaders t = gl.FALSE →
      0 ≤ newProgram.logLength W shaders t → newProgram.logLength W shaders t < 2 ^ 31 - 1 →
      ∃ msg, newProgram W shaders t =
        Outcome.returned (0, some msg)
          (newProgram.link W shaders t ++
            [Call.GetProgramiv (newProgram.program W t) gl.INFO_LOG_LENGTH,
             Call.GetProgramInfoLog (newProgram.program W t) (newProgram.logLength W shaders t)
               (nulls (newProgram.logLength W shaders t + 1).toNat),
             Call.DeleteProgram (newProgram.program W t)]) := by
  intro hne hs h0 h1
  obtain ⟨hrep, hstr⟩ := infoLog_buffer h0 h1
  rw [newProgram_unfold W shaders t hne, if_pos hs]
  simp only [hrep, hstr]
  exact ⟨_, rfl⟩

/-- C6 (amended): `newProgram`, with the link status and the info-log length
it reads back.  With an empty list it returns program 0 and an error without
making any call.  With a non-empty list: if the status is not `gl.FALSE` it
returns the handle from `gl.CreateProgram` with a nil error and makes no
`DeleteProgram` call; if the status is `gl.FALSE` and the reported log length
lies in `[0, 2^31 - 1)` it calls `gl.DeleteProgram` on the program it created
and returns program 0 with a non-nil error.  So whenever the list is empty, the
status is not `gl.FALSE`, or the log length is in that range, it returns an
error exactly when the list is empty or the status is `gl.FALSE`.  For a
non-empty list, status `gl.FALSE` and a log length outside the range it panics
before `GetProgramInfoLog` and `DeleteProgram`. -/
theorem newProgram_error_iff_empty_or_status (W : World) (shaders : List Nat) (t : List Call) :
    (shaders = [] →
      newProgram W shaders t = Outcome.returned (0, some "no shaders provided") t) ∧
    (shaders ≠ [] → newProgram.status W shaders t ≠ gl.FALSE →
      newProgram W shaders t =
        Outcome.returned (newProgram.program W t, none) (newProgram.link W shaders t)) ∧
    (shaders ≠ [] → newProgram.status W shaders t = gl.FALSE →
      0 ≤ newProgram.logLength W shaders t → newProgram.logLength W shaders t < 2 ^ 31 - 1 →
      ∃ msg, newProgram W shaders t =
        Outcome.returned (0, some msg)
          (newProgram.link W shaders t ++
            [Call.GetProgramiv (newProgram.program W t) gl.INFO_LOG_LENGTH,
             Call.GetProgramInfoLog (newProgram.program W t) (newProgram.logLength W shaders t)
               (nulls (newProgram.logLength W shaders t + 1).toNat),
             Call.DeleteProgram (newProgram.program W t)])) ∧
    (shaders = [] ∨ newProgram.status W shaders t ≠ gl.FALSE ∨
        (0 ≤ newProgram.logLength W shaders t ∧ newProgram.logLength W shaders t < 2 ^ 31 - 1) →
      ((newProgram W shaders t).failed = true ↔
        shaders = [] ∨ newProgram.status W shaders t = gl.FALSE)) ∧
    (shaders ≠ [] → newProgram.status W shaders t = gl.FALSE →
      (newProgram.logLength W shaders t < 0 ∨ newProgram.logLength W shaders t = 2 ^ 31 - 1) →
      newProgram W shaders t =
        Outcome.panicked (newProgram.link W shaders t ++
          [Call.GetProgramiv (newProgram.program W t) gl.INFO_LOG_LENGTH])) := by
  have hempty : shaders = [] →
      newProgram W shaders t = Outcome.returned (0, some "no shaders provided") t := by
    intro h
    subst h
    rfl
  have hok : shaders ≠ [] → newProgram.status W shaders t ≠ gl.FALSE →
      newProgram W shaders t =
        Outcome.returned (newProgram.program W t, none) (newProgram.link W shaders t) := by
    intro hne hs
    rw [newProgram_unfold W shaders t hne, if_neg hs]
  have hfail := newProgram_of_failed W shaders t
  refine ⟨hempty, hok, hfail, ?_, ?_⟩
  · intro h
    by_cases hne : shaders = []
    · rw [hempty hne]
      simp [hne, Outcome.failed]
    · by_cases hs : newProgram.status W shaders t = gl.FALSE
      · have hr := (h.resolve_left hne).resolve_left (not_not.mpr hs)
        obtain ⟨msg, hm⟩ := hfail hne hs hr.1 hr.2
        simp [hm, hs, Outcome.failed]
      · simp [hok hne hs, hs, hne, Outcome.failed]
  · intro hne hs hout
    have hp := infoLog_buffer_panics _ hout
    rw [newProgram_unfold W shaders t hne, if_pos hs]
    cases hrep : strings.Repeat "\x00" (int32 (newProgram.logLength W shaders t + 1)) with
    | none => rfl
    | some log =>
      unfold newProgram.logLength at hrep
      rw [hrep] at hp
      simp only [Option.bind] at hp
      simp only [hp]

/-- C6, witness: the empty list, a link that succeeds, and a link that fails
with an info log of 5 bytes. -/
theorem newProgram_error_iff_empty_or_status_witness :
    newProgram agreeableDriver [] [] = Outcome.returned (0, some "no shaders provided") [] ∧
      newProgram agreeableDriver [7, 8] [] =
        Outcome.returned (1, none)
          [Call.CreateProgram, Call.AttachShader 1 7, Call.AttachShader 1 8, Call.LinkProgram 1,
           Call.DetachShader 1 7, Call.DetachShader 1 8, Call.GetProgramiv 1 gl.LINK_STATUS] ∧
      (∃ msg, newProgram (failingDriver 5) [7, 8] [] =
        Outcome.returned (0, some msg)
          [Call.CreateProgram, Call.AttachShader 1 7, Call.AttachShader 1 8, Call.LinkProgram 1,
           Call.DetachShader 1 7, Call.DetachShader 1 8, Call.GetProgramiv 1 gl.LINK_STATUS,
           Call.GetProgramiv 1 gl.INFO_LOG_LENGTH, Call.GetProgramInfoLog 1 5 (nulls 6),
           Call.DeleteProgram 1]) ∧
      ((newProgram (failingDriver 5) [7, 8] []).failed = true ↔
        [7, 8] = ([] : List Nat) ∨ newProgram.status (failingDriver 5) [7, 8] [] = gl.FALSE) :=
  ⟨(newProgram_error_iff_empty_or_status agreeableDriver [] []).1 rfl,
   (newProgram_error_iff_empty_or_status agreeableDriver [7, 8] []).2.1 (by decide) (by decide),
   (newProgram_error_iff_empty_or_status (failingDriver 5) [7, 8] []).2.2.1
     (by decide) (by decide) (by decide) (by decide),
   (newProgram_error_iff_empty_or_status (failingDriver 5) [7, 8] []).2.2.2.1
     (Or.inr (Or.inr ⟨by decide, by decide⟩))⟩

/-- C6, counterexample: the driver reports a failed link and an info log of
2^31 - 1 bytes.  The list is not empty and the link status `newProgram` reads
back is `gl.FALSE`, yet it does not return an error: `logLength + 1` wraps to
-2^31, `strings.Repeat` panics, and the program is not deleted. -/
theorem newProgram_huge_log_panics :
    newProgram.status (failingDriver 2147483647) [7, 8] [] = gl.FALSE ∧
      newProgram (failingDriver 2147483647) [7, 8] [] =
        Outcome.panicked
          [Call.CreateProgram, Call.AttachShader 1 7, Call.AttachShader 1 8, Call.LinkProgram 1,
           Call.DetachShader 1 7, Call.DetachShader 1 8, Call.GetProgramiv 1 gl.LINK_STATUS,
           Call.GetProgramiv 1 gl.INFO_LOG_LENGTH] ∧
      ¬ ((newProgram (failingDriver 2147483647) [7, 8] []).failed = true ↔
        [7, 8] = ([] : List Nat) ∨
          newProgram.status (failingDriver 2147483647) [7, 8] [] = gl.FALSE) := by
  decide

theorem Context.after_append (c : Context) (l₁ l₂ : List Call) :
    c.after (l₁ ++ l₂) = (c.after l₁).after l₂ := by
  unfold Context.after
  rw [List.foldl_append]

theorem Context.attached_apply_of_quiet (c : Context) (call : Call)
    (h : call.isAttachLinkDetach = false) (x : Nat × Nat)
    (hx : x ∈ (c.apply call).attached) : x ∈ c.attached := by
  cases call <;> simp [Call.isAttachLinkDetach] at h <;>
    simp only [Context.apply] at hx <;> try exact hx
  · exact (List.mem_filter.mp hx).1
  · split at hx <;> exact hx

theorem Context.attached_after_of_quiet (l : List Call) (c : Context)
    (h : ∀ call ∈ l, call.isAttachLinkDetach = false) (x : Nat × Nat)
    (hx : x ∈ (c.after l).attached) : x ∈ c.attached := by
  induction l generalizing c with
  | nil => exact hx
  | cons a l ih =>
    have h1 : x ∈ (c.apply a).attached :=
      ih (c.apply a) (fun call hc => h call (List.mem_cons_of_mem a hc)) hx
    exact Context.attached_apply_of_quiet c a (h a (List.mem_cons_self a l)) x h1

theorem Context.attached_after_detach (p : Nat) (l : List Nat) (c : Context) (x : Nat × Nat)
    (hx : x ∈ (c.after (l.map (Call.DetachShader p))).attached) :
    x ∈ c.attached ∧ ∀ s ∈ l, x ≠ (p, s) := by
  induction l generalizing c with
  | nil => exact ⟨hx, fun s hs => absurd hs (List.not_mem_nil s)⟩
  | cons a l ih =>
    have h1 := ih (c.apply (Call.DetachShader p a)) hx
    have h2 : x ∈ c.attached ∧ x ≠ (p, a) := by
      have := h1.1
      simp only [Context.apply] at this
      simpa using List.mem_filter.mp this
    refine ⟨h2.1, ?_⟩
    intro s hs
    rcases List.mem_cons.mp hs with rfl | hs
    · exact h2.2
    · exact h1.2 s hs

/-- C9: on a non-empty list the calls of `newProgram` are: `CreateProgram`;
one `AttachShader` per shader of the list, in list order; one `LinkProgram`;
one `DetachShader` per shader of the list, in list order; the query of the
link status; and then calls among which there is no attach, link or detach,
whatever the driver answers.  After these calls no shader of the list is
attached to the program, from whatever context they start. -/
theorem newProgram_attach_link_detach (W : World) (shaders : List Nat) (t : List Call)
    (h : shaders ≠ []) :
    ∃ rest,
      (newProgram W shaders t).calls =
        t ++ [Call.CreateProgram] ++
          shaders.map (Call.AttachShader (newProgram.program W t)) ++
          [Call.LinkProgram (newProgram.program W t)] ++
          shaders.map (Call.DetachShader (newProgram.program W t)) ++
          [Call.GetProgramiv (newProgram.program W t) gl.LINK_STATUS] ++ rest ∧
      (∀ call ∈ rest, call.isAttachLinkDetach = false) ∧
      ∀ (c : Context), ∀ s ∈ shaders,
        (newProgram.program W t, s) ∉ (c.after (newProgram W shaders t).calls).attached := by
  have hrest : ∃ rest, (newProgram W shaders t).calls = newProgram.link W shaders t ++ rest ∧
      ∀ call ∈ rest, call.isAttachLinkDetach = false := by
    rw [newProgram_unfold W shaders t h]
    split
    · split
      · exact ⟨_, rfl, by simp [Call.isAttachLinkDetach]⟩
      · split
        · exact ⟨_, rfl, by simp [Call.isAttachLinkDetach]⟩
        · exact ⟨_, rfl, by simp [Call.isAttachLinkDetach]⟩
    · exact ⟨[], by simp [Outcome.calls], by simp⟩
  obtain ⟨rest, hcalls, hquiet⟩ := hrest
  refine ⟨rest, hcalls, hquiet, ?_⟩
  intro c s hs hmem
  rw [hcalls] at hmem
  have hquiet2 : ∀ call ∈ [Call.GetProgramiv (newProgram.program W t) gl.LINK_STATUS] ++ rest,
      call.isAttachLinkDetach = false := by
    intro call hc
    rcases List.mem_append.mp hc with hc | hc
    · rw [List.mem_singleton.mp hc]
      rfl
    · exact hquiet call hc
  unfold newProgram.link at hmem
  rw [List.append_assoc, Context.after_append] at hmem
  have h1 := Context.attached_after_of_quiet _ _ hquiet2 _ hmem
  rw [Context.after_append] at h1
  exact (Context.attached_after_detach _ _ _ _ h1).2 s hs rfl

/-- C9, witness: two shaders, a link that fails with an info log of 5 bytes. -/
theorem newProgram_attach_link_detach_witness :
    ([7, 8] : List Nat) ≠ [] ∧
    ∃ rest,
      (newProgram (failingDriver 5) [7, 8] []).calls =
        [Call.CreateProgram, Call.AttachShader 1 7, Call.AttachShader 1 8, Call.LinkProgram 1,
         Call.DetachShader 1 7, Call.DetachShader 1 8, Call.GetProgramiv 1 gl.LINK_STATUS] ++
          rest ∧
      (∀ call ∈ rest, call.isAttachLinkDetach = false) ∧
      ∀ (c : Context), ∀ s ∈ [7, 8],
        (1, s) ∉ (c.after (newProgram (failingDriver 5) [7, 8] []).calls).attached :=
  ⟨by decide, newProgram_attach_link_detach (failingDriver 5) [7, 8] [] (by decide)⟩

/-! ## `LoadTriangle`, `drawScene`, `keyCallback` -/

theorem glStr_eq (s : String) : glStr s = some (s ++ "\x00") := by
  unfold glStr gl.Str
  rw [if_pos (endsInNUL_append_NUL s)]

theorem vert_NUL : ("vert" ++ "\x00" : String) = "vert\x00" := by
  decide

/-- The body of `LoadTriangle` in terms of what it reads back. -/
theorem LoadTriangle_unfold (W : World) (p : program) (s : state) (t : List Call) :
    LoadTriangle W p s t =
      if LoadTriangle.location W p t = -1 then
        Outcome.returned (⟨LoadTriangle.vao W t, LoadTriangle.vbo W t⟩,
          some ("program attribute not found: " ++ "vert")) (LoadTriangle.upload W p t)
      else
        Outcome.returned (⟨LoadTriangle.vao W t, LoadTriangle.vbo W t⟩, none)
          (LoadTriangle.upload W p t ++
            [Call.EnableVertexAttribArray (uint32 (LoadTriangle.location W p t)),
             Call.VertexAttribPointer (uint32 (LoadTriangle.location W p t)) 3 gl.FLOAT false 0 0,
             Call.BindBuffer gl.ARRAY_BUFFER 0,
             Call.BindVertexArray 0]) := by
  unfold LoadTriangle program.attr LoadTriangle.location LoadTriangle.upload LoadTriangle.vbo
    LoadTriangle.vao
  simp only [glStr_eq, vert_NUL, List.append_assoc, List.singleton_append, List.cons_append,
    List.nil_append]
  split_ifs
  · rfl
  · simp only [List.append_assoc, List.singleton_append, List.cons_append, List.nil_append]

theorem uint32_of_nonneg_int32 (x : Int) (h : 0 ≤ int32 x) : (uint32 (int32 x) : Int) = int32 x := by
  have hb := int32_bounds x
  unfold uint32
  omega

theorem uint32_of_negative_int32 (x : Int) (h : int32 x < -1) :
    (uint32 (int32 x) : Int) = int32 x + 2 ^ 32 := by
  have hb := int32_bounds x
  unfold uint32
  omega

/-- C8 (amended): `LoadTriangle` never panics and returns a non-nil error
exactly when the location `gl.GetAttribLocation(p, "vert")` returns is -1.
Otherwise it enables the attribute at index `uint32(location)`, which is the
location itself when it is not negative and the location plus 2^32 when it is
below -1, describes it as 3 components of type `gl.FLOAT`, not
normalized, stride 0, offset 0, binds buffer 0 to `ARRAY_BUFFER` and vertex
array 0, and returns nil; after its calls both bindings are 0, and `s.vao` and
`s.vbo` hold the names `gl.GenVertexArrays` and `gl.GenBuffers` stored. -/
theorem LoadTriangle_error_iff_not_found (W : World) (p : program) (s : state)
    (t : List Call) :
    ((LoadTriangle W p s t).failed = true ↔ LoadTriangle.location W p t = -1) ∧
    (LoadTriangle.location W p t = -1 →
      ∃ msg, LoadTriangle W p s t =
        Outcome.returned (⟨LoadTriangle.vao W t, LoadTriangle.vbo W t⟩, some msg)
          (LoadTriangle.upload W p t)) ∧
    (LoadTriangle.location W p t ≠ -1 →
      LoadTriangle W p s t =
        Outcome.returned (⟨LoadTriangle.vao W t, LoadTriangle.vbo W t⟩, none)
          (LoadTriangle.upload W p t ++
            [Call.EnableVertexAttribArray (uint32 (LoadTriangle.location W p t)),
             Call.VertexAttribPointer (uint32 (LoadTriangle.location W p t)) 3 gl.FLOAT false 0 0,
             Call.BindBuffer gl.ARRAY_BUFFER 0,
             Call.BindVertexArray 0]) ∧
      (0 ≤ LoadTriangle.location W p t →
        (uint32 (LoadTriangle.location W p t) : Int) = LoadTriangle.location W p t) ∧
      (LoadTriangle.location W p t < -1 →
        (uint32 (LoadTriangle.location W p t) : Int) = LoadTriangle.location W p t + 2 ^ 32) ∧
      ∀ c : Context,
        (c.after (LoadTriangle W p s t).calls).arrayBuffer = 0 ∧
        (c.after (LoadTriangle W p s t).calls).vertexArray = 0) := by
  refine ⟨?_, ?_, ?_⟩
  · rw [LoadTriangle_unfold]
    split_ifs with h <;> simp [Outcome.failed, h]
  · intro h
    rw [LoadTriangle_unfold, if_pos h]
    exact ⟨_, rfl⟩
  · intro h
    refine ⟨by rw [LoadTriangle_unfold, if_neg h], ?_, ?_, ?_⟩
    · intro h0
      exact uint32_of_nonneg_int32 _ h0
    · intro h0
      exact uint32_of_negative_int32 _ h0
    · intro c
      rw [LoadTriangle_unfold, if_neg h]
      simp [Outcome.calls, Context.after, Context.apply, List.foldl_append]

/-- C8, witness: a driver that puts `vert` at location 1, and one that
answers -1 to everything. -/
theorem LoadTriangle_error_iff_not_found_witness :
    LoadTriangle agreeableDriver 3 ⟨0, 0⟩ [] =
        Outcome.returned (⟨1, 1⟩, none)
          [Call.GenVertexArrays 1, Call.BindVertexArray 1, Call.GenBuffers 1,
           Call.BindBuffer gl.ARRAY_BUFFER 1,
           Call.BufferData gl.ARRAY_BUFFER 36 LoadTriangle.vertexData gl.STATIC_DRAW,
           Call.GetAttribLocation 3 "vert\x00",
           Call.EnableVertexAttribArray 1, Call.VertexAttribPointer 1 3 gl.FLOAT false 0 0,
           Call.BindBuffer gl.ARRAY_BUFFER 0, Call.BindVertexArray 0] ∧
      (∃ msg, LoadTriangle ⟨fun _ => -1, fun _ => ""⟩ 3 ⟨0, 0⟩ [] =
        Outcome.returned (⟨4294967295, 4294967295⟩, some msg)
          [Call.GenVertexArrays 1, Call.BindVertexArray 4294967295, Call.GenBuffers 1,
           Call.BindBuffer gl.ARRAY_BUFFER 4294967295,
           Call.BufferData gl.ARRAY_BUFFER 36 LoadTriangle.vertexData gl.STATIC_DRAW,
           Call.GetAttribLocation 3 "vert\x00"]) :=
  ⟨((LoadTriangle_error_iff_not_found agreeableDriver 3 ⟨0, 0⟩ []).2.2 (by decide)).1,
   (LoadTriangle_error_iff_not_found ⟨fun _ => -1, fun _ => ""⟩ 3 ⟨0, 0⟩ []).2.1 (by decide)⟩

/-- C8, counterexample: the driver answers -2 to `GetAttribLocation`.
`LoadTriangle` returns nil, and the attribute it enables and describes is
4294967294, not the location -2. -/
theorem LoadTriangle_negative_location_wraps :
    LoadTriangle.location strayLocationDriver 3 [] = -2 ∧
      LoadTriangle strayLocationDriver 3 ⟨0, 0⟩ [] =
        Outcome.returned (⟨1, 1⟩, none)
          [Call.GenVertexArrays 1, Call.BindVertexArray 1, Call.GenBuffers 1,
           Call.BindBuffer gl.ARRAY_BUFFER 1,
           Call.BufferData gl.ARRAY_BUFFER 36 LoadTriangle.vertexData gl.STATIC_DRAW,
           Call.GetAttribLocation 3 "vert\x00",
           Call.EnableVertexAttribArray 4294967294,
           Call.VertexAttribPointer 4294967294 3 gl.FLOAT false 0 0,
           Call.BindBuffer gl.ARRAY_BUFFER 0, Call.BindVertexArray 0] ∧
      ((4294967294 : Nat) : Int) ≠ -2 := by
  refine ⟨by decide, ?_, by decide⟩
  rw [LoadTriangle_unfold, if_neg (by decide)]
  rfl

/-- C1 (the code at any input): `LoadTriangle` hands `gl.BufferData` the
pointer to `vertexData` with a size of 36 bytes (`len(vertexData)*4`), while
the 9 `float64` values of `vertexData` occupy 72 bytes. -/
theorem LoadTriangle_BufferData_size (W : World) (p : program) (s : state) (t : List Call) :
    (∃ rest, (LoadTriangle W p s t).calls =
      t ++ [Call.GenVertexArrays 1, Call.BindVertexArray (LoadTriangle.vao W t),
            Call.GenBuffers 1, Call.BindBuffer gl.ARRAY_BUFFER (LoadTriangle.vbo W t),
            Call.BufferData gl.ARRAY_BUFFER 36 LoadTriangle.vertexData gl.STATIC_DRAW] ++ rest) ∧
    LoadTriangle.vertexData.length = 9 ∧
    float64.sliceBytes LoadTriangle.vertexData = 72 := by
  refine ⟨?_, by decide, by decide⟩
  have h36 : ((LoadTriangle.vertexData.length : Int) * 4) = 36 := by decide
  rw [LoadTriangle_unfold]
  unfold LoadTriangle.upload
  rw [h36]
  split_ifs
  · exact ⟨_, by simp [Outcome.calls]; rfl⟩
  · exact ⟨_, by simp [Outcome.calls]; rfl⟩

/-- C7: `drawScene` makes exactly these calls, in this order: `gl.Clear` of
the color and depth buffers, `gl.UseProgram(p)`, `gl.BindVertexArray(s.vao)`,
one `gl.DrawArrays(TRIANGLES, 0, 3)`, `gl.BindVertexArray(0)`,
`gl.UseProgram(0)`, `window.SwapBuffers`.  After them the current program and
the bound vertex array are 0, and the window and `s` are as they were. -/
theorem drawScene_clear_draw_swap (window : Window) (p : program) (s : state) (t : List Call) :
    drawScene window p s t =
      (window, s, t ++ [Call.Clear (gl.COLOR_BUFFER_BIT ||| gl.DEPTH_BUFFER_BIT),
                        Call.UseProgram p,
                        Call.BindVertexArray s.vao,
                        Call.DrawArrays gl.TRIANGLES 0 3,
                        Call.BindVertexArray 0,
                        Call.UseProgram 0,
                        Call.SwapBuffers]) ∧
    (gl.COLOR_BUFFER_BIT ||| gl.DEPTH_BUFFER_BIT) &&& gl.COLOR_BUFFER_BIT = gl.COLOR_BUFFER_BIT ∧
    (gl.COLOR_BUFFER_BIT ||| gl.DEPTH_BUFFER_BIT) &&& gl.DEPTH_BUFFER_BIT = gl.DEPTH_BUFFER_BIT ∧
    (∀ c : Context,
      (c.after (drawScene window p s t).2.2).currentProgram = 0 ∧
      (c.after (drawScene window p s t).2.2).vertexArray = 0) ∧
    (drawScene window p s t).2.1.vao = s.vao ∧
    (drawScene window p s t).2.1.vbo = s.vbo := by
  have h : drawScene window p s t =
      (window, s, t ++ [Call.Clear (gl.COLOR_BUFFER_BIT ||| gl.DEPTH_BUFFER_BIT),
                        Call.UseProgram p,
                        Call.BindVertexArray s.vao,
                        Call.DrawArrays gl.TRIANGLES 0 3,
                        Call.BindVertexArray 0,
                        Call.UseProgram 0,
                        Call.SwapBuffers]) := by
    unfold drawScene Window.SwapBuffers
    simp only [List.append_assoc, List.singleton_append, List.cons_append, List.nil_append]
  refine ⟨h, by decide, by decide, ?_, by rw [h], by rw [h]⟩
  intro c
  rw [h]
  simp [Context.after, Context.apply, List.foldl_append]

/-- C3: for every key, scancode, action and modifier value, `keyCallback`
on `glfw.KeyEscape` makes the one call `SetShouldClose(true)` and the flag
is true afterwards; on every other key it makes no call and leaves the window
as it is.  It never calls `SetShouldClose(false)`, and a flag that is set
stays set. -/
theorem keyCallback_closes_on_escape (window : Window) (key scancode action mods : Int)
    (t : List Call) :
    (key = glfw.KeyEscape →
      keyCallback window key scancode action mods t =
        (⟨true⟩, t ++ [Call.SetShouldClose true])) ∧
    (key ≠ glfw.KeyEscape → keyCallback window key scancode action mods t = (window, t)) ∧
    (∃ made, (keyCallback window key scancode action mods t).2 = t ++ made ∧
      Call.SetShouldClose false ∉ made) ∧
    (window.shouldClose = true →
      (keyCallback window key scancode action mods t).1.shouldClose = true) := by
  unfold keyCallback Window.SetShouldClose
  refine ⟨?_, ?_, ?_, ?_⟩
  · intro h
    rw [if_pos h]
  · intro h
    rw [if_neg h]
  · split_ifs
    · exact ⟨[Call.SetShouldClose true], rfl, by simp⟩
    · exact ⟨[], by simp, by simp⟩
  · intro h
    split_ifs
    · rfl
    · exact h

/-- C3, witness: escape released with the flag clear, and the key `A` pressed
with the flag set. -/
theorem keyCallback_closes_on_escape_witness :
    keyCallback ⟨false⟩ 256 9 0 0 [] = (⟨true⟩, [Call.SetShouldClose true]) ∧
      keyCallback ⟨true⟩ 65 38 1 0 [] = (⟨true⟩, []) ∧
      (keyCallback ⟨true⟩ 65 38 1 0 []).1.shouldClose = true :=
  ⟨(keyCallback_closes_on_escape ⟨false⟩ 256 9 0 0 []).1 (by decide),
   (keyCallback_closes_on_escape ⟨true⟩ 65 38 1 0 []).2.1 (by decide),
   (keyCallback_closes_on_escape ⟨true⟩ 65 38 1 0 []).2.2.2 rfl⟩

/-! ## The loop of `main` -/

theorem main.frames_succ (p : program) (s : state) (k : Nat) :
    main.frames p s (k + 1) =
      Step.ShouldClose :: Step.drawScene p s :: Step.PollEvents :: main.frames p s k := by
  unfold main.frames
  rw [List.replicate_succ, List.flatten_cons]
  rfl

theorem main.count_frames (p : program) (s : state) (k : Nat) (l : List Step)
    (hl : List.count (Step.drawScene p s) l = 0) :
    List.count (Step.drawScene p s) (main.frames p s k ++ l) = k := by
  induction k with
  | zero => simpa [main.frames] using hl
  | succ k ih =>
    rw [main.frames_succ]
    simp [List.count_cons, ih]

theorem main.loop_closed (p : program) (s : state) (fuel : Nat) (polls : Nat → Bool) :
    main.loop p s (fuel + 1) ⟨true⟩ polls = ([Step.ShouldClose], true) := by
  simp [main.loop]

theorem main.loop_open (p : program) (s : state) (fuel : Nat) (polls : Nat → Bool) :
    main.loop p s (fuel + 1) ⟨false⟩ polls =
      (Step.ShouldClose :: Step.drawScene p s :: Step.PollEvents ::
          (main.loop p s fuel ⟨polls 0⟩ (fun k => polls (k + 1))).1,
        (main.loop p s fuel ⟨polls 0⟩ (fun k => polls (k + 1))).2) := by
  simp [main.loop]

/-- Whatever the poll outcomes, the loop performs whole iterations and then,
if it is left, the one test that found the flag set. -/
theorem main.loop_shape (p : program) (s : state) (fuel : Nat) :
    ∀ (w : Window) (polls : Nat → Bool), ∃ k, k ≤ fuel ∧
      (main.loop p s fuel w polls).1 =
        main.frames p s k ++ (if (main.loop p s fuel w polls).2 then [Step.ShouldClose] else []) := by
  induction fuel with
  | zero =>
    intro w polls
    exact ⟨0, le_refl 0, by simp [main.loop, main.frames]⟩
  | succ fuel ih =>
    intro w polls
    obtain ⟨flag⟩ := w
    cases flag with
    | true => exact ⟨0, Nat.zero_le _, by simp [main.loop_closed, main.frames]⟩
    | false =>
      obtain ⟨k, hk, h⟩ := ih ⟨polls 0⟩ (fun k => polls (k + 1))
      refine ⟨k + 1, Nat.succ_le_succ hk, ?_⟩
      rw [main.loop_open, main.frames_succ]
      simp only [List.cons_append]
      rw [← h]

theorem main.loop_exit (p : program) (s : state) (k : Nat) :
    ∀ (polls : Nat → Bool) (fuel : Nat), (∀ i, i < k → polls i = false) → polls k = true →
      k + 1 < fuel →
      main.loop p s fuel ⟨false⟩ polls = (main.frames p s (k + 1) ++ [Step.ShouldClose], true) := by
  induction k with
  | zero =>
    intro polls fuel _ hk hf
    obtain ⟨f, rfl⟩ : ∃ f, fuel = f + 2 := ⟨fuel - 2, by omega⟩
    rw [main.loop_open, hk, main.loop_closed]
    simp [main.frames]
  | succ k ih =>
    intro polls fuel hlt hk hf
    obtain ⟨f, rfl⟩ : ∃ f, fuel = f + 1 := ⟨fuel - 1, by omega⟩
    have h0 : polls 0 = false := hlt 0 (Nat.succ_pos k)
    have := ih (fun i => polls (i + 1)) f (fun i hi => hlt (i + 1) (Nat.succ_lt_succ hi)) hk
      (by omega)
    rw [main.loop_open, h0, this, main.frames_succ p s (k + 1)]
    rfl

theorem main.loop_running (p : program) (s : state) (fuel : Nat) :
    ∀ (polls : Nat → Bool), (∀ i, polls i = false) →
      main.loop p s fuel ⟨false⟩ polls = (main.frames p s fuel, false) := by
  induction fuel with
  | zero =>
    intro polls _
    simp [main.loop, main.frames]
  | succ fuel ih =>
    intro polls h
    rw [main.loop_open, h 0, ih (fun k => polls (k + 1)) (fun i => h (i + 1)), main.frames_succ]

/-- C2: for every sequence of poll outcomes the loop of `main` performs whole
iterations, each one test of the flag, one `drawScene`, one `PollEvents` in
that order, and is left exactly at the first test that finds the flag set.  With
the flag set before the loop it is left at the first test and no frame is
drawn; if the flag is first set by the `k`-th `PollEvents` (`k >= 1`), the loop
is left after exactly `k` frames (given fuel for `k + 1` tests); and while the
flag stays clear the loop is never left: with fuel for `n` tests it has
performed `n` iterations and is still running. -/
theorem main_loop_draws_until_close (p : program) (s : state) (polls : Nat → Bool) :
    (∀ (w : Window) (fuel : Nat), ∃ k, k ≤ fuel ∧
      (main.loop p s fuel w polls).1 =
        main.frames p s k ++
          (if (main.loop p s fuel w polls).2 then [Step.ShouldClose] else [])) ∧
    (∀ fuel, main.loop p s (fuel + 1) ⟨true⟩ polls = ([Step.ShouldClose], true)) ∧
    (∀ k, 1 ≤ k → (∀ i, i + 1 < k → polls i = false) → polls (k - 1) = true →
      ∀ fuel, k < fuel →
        main.loop p s fuel ⟨false⟩ polls = (main.frames p s k ++ [Step.ShouldClose], true) ∧
        List.count (Step.drawScene p s) (main.loop p s fuel ⟨false⟩ polls).1 = k) ∧
    ((∀ i, polls i = false) → ∀ fuel,
      main.loop p s fuel ⟨false⟩ polls = (main.frames p s fuel, false)) := by
  refine ⟨fun w fuel => main.loop_shape p s fuel w polls, fun fuel => main.loop_closed p s fuel polls,
    ?_, fun h fuel => main.loop_running p s fuel polls h⟩
  intro k hk hlt hset fuel hf
  obtain ⟨j, rfl⟩ : ∃ j, k = j + 1 := ⟨k - 1, by omega⟩
  have h := main.loop_exit p s j polls fuel (fun i hi => hlt i (by omega)) hset (by omega)
  refine ⟨h, ?_⟩
  rw [h]
  exact main.count_frames p s (j + 1) [Step.ShouldClose] (by simp)

/-- C2, witness: the flag is set by the third `PollEvents`; three frames are drawn. -/
theorem main_loop_draws_until_close_witness :
    main.loop 3 ⟨1, 1⟩ 1 ⟨true⟩ (fun i => decide (2 ≤ i)) = ([Step.ShouldClose], true) ∧
      main.loop 3 ⟨1, 1⟩ 9 ⟨false⟩ (fun i => decide (2 ≤ i)) =
        ([Step.ShouldClose, Step.drawScene 3 ⟨1, 1⟩, Step.PollEvents,
          Step.ShouldClose, Step.drawScene 3 ⟨1, 1⟩, Step.PollEvents,
          Step.ShouldClose, Step.drawScene 3 ⟨1, 1⟩, Step.PollEvents,
          Step.ShouldClose], true) ∧
      List.count (Step.drawScene 3 ⟨1, 1⟩)
        (main.loop 3 ⟨1, 1⟩ 9 ⟨false⟩ (fun i => decide (2 ≤ i))).1 = 3 ∧
      main.loop 3 ⟨1, 1⟩ 2 ⟨false⟩ (fun _ => false) =
        ([Step.ShouldClose, Step.drawScene 3 ⟨1, 1⟩, Step.PollEvents,
          Step.ShouldClose, Step.drawScene 3 ⟨1, 1⟩, Step.PollEvents], false) :=
  ⟨(main_loop_draws_until_close 3 ⟨1, 1⟩ (fun i => decide (2 ≤ i))).2.1 0,
   ((main_loop_draws_until_close 3 ⟨1, 1⟩ (fun i => decide (2 ≤ i))).2.2.1 3 (by decide)
      (fun i hi => decide_eq_false (by omega)) (by decide) 9 (by decide)).1,
   ((main_loop_draws_until_close 3 ⟨1, 1⟩ (fun i => decide (2 ≤ i))).2.2.1 3 (by decide)
      (fun i hi => decide_eq_false (by omega)) (by decide) 9 (by decide)).2,
   (main_loop_draws_until_close 3 ⟨1, 1⟩ (fun _ => false)).2.2.2 (fun _ => rfl) 2⟩


/-! ## `main` -/

theorem main.frames_no_log (p : program) (s : state) (k : Nat) :
    ∀ x ∈ main.frames p s k, x.isLog = false := by
  induction k with
  | zero => simp [main.frames]
  | succ k ih =>
    rw [main.frames_succ]
    intro x hx
    simp only [List.mem_cons] at hx
    rcases hx with rfl | rfl | rfl | hx
    · rfl
    · rfl
    · rfl
    · exact ih x hx

theorem main.loop_no_log (p : program) (s : state) (fuel : Nat) (w : Window)
    (polls : Nat → Bool) : ∀ x ∈ (main.loop p s fuel w polls).1, x.isLog = false := by
  obtain ⟨k, _, h⟩ := main.loop_shape p s fuel w polls
  rw [h]
  intro x hx
  rcases List.mem_append.mp hx with hx | hx
  · exact main.frames_no_log p s k x hx
  · split at hx
    · rw [List.mem_singleton.mp hx]
      rfl
    · exact absurd hx (List.not_mem_nil x)

/-- What a run of `main` performs, by the first fallible step that does not
succeed. -/
theorem main.run_cases (W : World) (r : Results) (fuel : Nat) :
    (∀ f, main.firstFailure W r = some f → ∀ err, f.status = Status.failed err →
      (main W r fuel).calls = (main.bootstrap W).take f.done ∧
      (main W r fuel).steps.getLast? = some (Step.logFatalln f.label err) ∧
      (main W r fuel).exit = Exit.fatal ∧
      (main W r fuel).gl = f.gl ∧
      ∀ p s, Step.drawScene p s ∉ (main W r fuel).steps) ∧
    (∀ f, main.firstFailure W r = some f → f.status = Status.panicked →
      (main W r fuel).calls = (main.bootstrap W).take f.done ++ f.deferred ∧
      (main W r fuel).exit = Exit.panicked ∧
      (main W r fuel).gl = f.gl ∧
      ∀ p s, Step.drawScene p s ∉ (main W r fuel).steps) ∧
    (main.firstFailure W r = none →
      (main W r fuel).calls =
        main.bootstrap W ++
          (main.loop ((main.shaderProgram W).value 0) ((main.triangle W).value ⟨0, 0⟩) fuel
            r.createWindow.1 r.pollEvents).1 ++
          (if (main.loop ((main.shaderProgram W).value 0) ((main.triangle W).value ⟨0, 0⟩) fuel
              r.createWindow.1 r.pollEvents).2
            then main.release W else []) ∧
      (main W r fuel).exit =
        (if (main.loop ((main.shaderProgram W).value 0) ((main.triangle W).value ⟨0, 0⟩) fuel
            r.createWindow.1 r.pollEvents).2
          then Exit.returned else Exit.running) ∧
      (main W r fuel).gl = setupScene (main.triangle W).calls) ∧
    ((∃ p s, Step.drawScene p s ∈ (main W r fuel).steps) →
      ∀ f ∈ main.fallible W r, f.status = Status.ok) := by
  obtain ⟨gi, ⟨w, cw⟩, gli, polls⟩ := r
  cases gi with
  | some e =>
    simp [main, Run.calls, Step.isLog, main.firstFailure, main.fallible, main.bootstrap, main.release,
      windowWidth, windowHeight, Status.ofError, Outcome.status, Outcome.calls, Outcome.value,
      main.vertexShader, main.fragmentShader, main.shaderProgram, main.triangle, main.infoCalls]
  | none =>
  cases cw with
  | some e =>
    simp [main, Run.calls, Step.isLog, main.firstFailure, main.fallible, main.bootstrap, main.release,
      windowWidth, windowHeight, Status.ofError, Outcome.status, Outcome.calls, Outcome.value,
      main.vertexShader, main.fragmentShader, main.shaderProgram, main.triangle, main.infoCalls]
  | none =>
  cases gli with
  | some e =>
    simp [main, Run.calls, Step.isLog, main.firstFailure, main.fallible, main.bootstrap, main.release,
      windowWidth, windowHeight, Status.ofError, Outcome.status, Outcome.calls, Outcome.value,
      main.vertexShader, main.fragmentShader, main.shaderProgram, main.triangle, main.infoCalls]
  | none =>
  cases hv : compileShader W vertexShaderSource gl.VERTEX_SHADER
      [Call.GetString gl.VERSION, Call.GetString gl.SHADING_LANGUAGE_VERSION,
       Call.GetString gl.VENDOR, Call.GetString gl.RENDERER] with
  | panicked t1 =>
    simp [main, Run.calls, Step.isLog, main.firstFailure, main.fallible, main.bootstrap, main.release,
      windowWidth, windowHeight, Status.ofError, Outcome.status, Outcome.calls, Outcome.value,
      main.vertexShader, main.fragmentShader, main.shaderProgram, main.triangle, main.infoCalls, hv]
  | returned v1 t1 =>
  obtain ⟨vs, e1⟩ := v1
  cases e1 with
  | some e =>
    simp [main, Run.calls, Step.isLog, main.firstFailure, main.fallible, main.bootstrap, main.release,
      windowWidth, windowHeight, Status.ofError, Outcome.status, Outcome.calls, Outcome.value,
      main.vertexShader, main.fragmentShader, main.shaderProgram, main.triangle, main.infoCalls, hv]
  | none =>
  cases hf : compileShader W fragmentShaderSource gl.FRAGMENT_SHADER t1 with
  | panicked t2 =>
    simp [main, Run.calls, Step.isLog, main.firstFailure, main.fallible, main.bootstrap, main.release,
      windowWidth, windowHeight, Status.ofError, Outcome.status, Outcome.calls, Outcome.value,
      main.vertexShader, main.fragmentShader, main.shaderProgram, main.triangle, main.infoCalls, hv, hf]
  | returned v2 t2 =>
  obtain ⟨fs, e2⟩ := v2
  cases e2 with
  | some e =>
    simp [main, Run.calls, Step.isLog, main.firstFailure, main.fallible, main.bootstrap, main.release,
      windowWidth, windowHeight, Status.ofError, Outcome.status, Outcome.calls, Outcome.value,
      main.vertexShader, main.fragmentShader, main.shaderProgram, main.triangle, main.infoCalls, hv, hf]
  | none =>
  cases hp : newProgram W [vs, fs] t2 with
  | panicked t3 =>
    simp [main, Run.calls, Step.isLog, main.firstFailure, main.fallible, main.bootstrap, main.release,
      windowWidth, windowHeight, Status.ofError, Outcome.status, Outcome.calls, Outcome.value,
      main.vertexShader, main.fragmentShader, main.shaderProgram, main.triangle, main.infoCalls, hv, hf, hp]
  | returned v3 t3 =>
  obtain ⟨p, e3⟩ := v3
  cases e3 with
  | some e =>
    simp [main, Run.calls, Step.isLog, main.firstFailure, main.fallible, main.bootstrap, main.release,
      windowWidth, windowHeight, Status.ofError, Outcome.status, Outcome.calls, Outcome.value,
      main.vertexShader, main.fragmentShader, main.shaderProgram, main.triangle, main.infoCalls, hv, hf, hp]
  | none =>
  cases ht : LoadTriangle W p ⟨0, 0⟩ t3 with
  | panicked t4 =>
    simp [main, Run.calls, Step.isLog, main.firstFailure, main.fallible, main.bootstrap, main.release,
      windowWidth, windowHeight, Status.ofError, Outcome.status, Outcome.calls, Outcome.value,
      main.vertexShader, main.fragmentShader, main.shaderProgram, main.triangle, main.infoCalls, hv, hf, hp, ht]
  | returned v4 t4 =>
  obtain ⟨st, e4⟩ := v4
  cases e4 with
  | some e =>
    simp [main, Run.calls, Step.isLog, main.firstFailure, main.fallible, main.bootstrap, main.release,
      windowWidth, windowHeight, Status.ofError, Outcome.status, Outcome.calls, Outcome.value,
      main.vertexShader, main.fragmentShader, main.shaderProgram, main.triangle, main.infoCalls, hv, hf, hp, ht]
  | none =>
    have hn := main.loop_no_log p st fuel w polls
    refine ⟨?_, ?_, fun _ => ?_, fun _ => ?_⟩
    · simp [main, Run.calls, Step.isLog, main.firstFailure, main.fallible, main.bootstrap, main.release,
      windowWidth, windowHeight, Status.ofError, Outcome.status, Outcome.calls, Outcome.value,
      main.vertexShader, main.fragmentShader, main.shaderProgram, main.triangle, main.infoCalls, hv, hf, hp, ht]
    · simp [main, Run.calls, Step.isLog, main.firstFailure, main.fallible, main.bootstrap, main.release,
      windowWidth, windowHeight, Status.ofError, Outcome.status, Outcome.calls, Outcome.value,
      main.vertexShader, main.fragmentShader, main.shaderProgram, main.triangle, main.infoCalls, hv, hf, hp, ht]
    · cases hL : main.loop p st fuel w polls with
      | mk frames left =>
        rw [hL] at hn
        have hfr : frames.filter (fun x => !x.isLog) = frames := by
          rw [List.filter_eq_self]
          intro x hx
          rw [hn x hx]
          rfl
        cases left with
        | false =>
          simp only [main, Run.calls, hv, hf, hp, ht, hL, List.filter_append, hfr,
            List.nil_append, List.cons_append, List.singleton_append]
          simp [Step.isLog, main.bootstrap, main.release, windowWidth, windowHeight, Outcome.calls,
            Outcome.value, main.vertexShader, main.fragmentShader, main.shaderProgram, main.triangle,
            main.infoCalls, hv, hf, hp, ht, hL]
          intro a ha
          simpa [Step.isLog] using hn a ha
        | true =>
          simp only [main, Run.calls, hv, hf, hp, ht, hL, List.filter_append, hfr,
            List.nil_append, List.cons_append, List.singleton_append]
          simp [Step.isLog, main.bootstrap, main.release, windowWidth, windowHeight, Outcome.calls,
            Outcome.value, main.vertexShader, main.fragmentShader, main.shaderProgram, main.triangle,
            main.infoCalls, hv, hf, hp, ht, hL]
          intro a ha
          simpa [Step.isLog] using hn a ha
    · simp [main, Run.calls, Step.isLog, main.firstFailure, main.fallible, main.bootstrap, main.release,
      windowWidth, windowHeight, Status.ofError, Outcome.status, Outcome.calls, Outcome.value,
      main.vertexShader, main.fragmentShader, main.shaderProgram, main.triangle, main.infoCalls, hv, hf, hp, ht]

/-- C4 (amended): `main` is a linear sequence that stops at the first failure.
Whenever none of its seven fallible steps panics, the statements it performs
(log lines apart) are an initial part of: `glfw.Init`, the five window hints,
`glfw.CreateWindow(800, 600, "Elevated")`, `MakeContextCurrent`,
`SetKeyCallback`, `gl.Init`, `compileShader` of the vertex source,
`compileShader` of the fragment source, `newProgram(vertexShader,
fragmentShader)`, `LoadTriangle`, `setupScene`, the iterations of the loop with
the test that ends it, `DeleteShader(fragmentShader)`,
`DeleteShader(vertexShader)`, `glfw.Terminate`.  If the first step that does
not succeed returns an error, the part ends right after it, the last thing
`main` does is `log.Fatalln` with that step's label and error, and it exits
without running a deferred call.  If that step panics instead, `main` performs
the statements up to it, then the deferred calls registered so far, and
crashes.  If all seven succeed, `main` performs the whole bootstrap and the
loop, and the release once the loop is left.  A frame is drawn only if all
seven succeed. -/
theorem main_stops_at_first_failure (W : World) (r : Results) (fuel : Nat) :
    ((∀ f, main.firstFailure W r = some f → f.status ≠ Status.panicked) →
      ∃ k rest, (main W r fuel).calls ++ rest =
        main.bootstrap W ++
          main.frames ((main.shaderProgram W).value 0) ((main.triangle W).value ⟨0, 0⟩) k ++
          [Step.ShouldClose] ++ main.release W) ∧
    (∀ f, main.firstFailure W r = some f → ∀ err, f.status = Status.failed err →
      (main W r fuel).calls = (main.bootstrap W).take f.done ∧
      (main W r fuel).steps.getLast? = some (Step.logFatalln f.label err) ∧
      (main W r fuel).exit = Exit.fatal ∧
      (main W r fuel).gl = f.gl ∧
      ∀ p s, Step.drawScene p s ∉ (main W r fuel).steps) ∧
    (∀ f, main.firstFailure W r = some f → f.status = Status.panicked →
      (main W r fuel).calls = (main.bootstrap W).take f.done ++ f.deferred ∧
      (main W r fuel).exit = Exit.panicked ∧
      (main W r fuel).gl = f.gl ∧
      ∀ p s, Step.drawScene p s ∉ (main W r fuel).steps) ∧
    (main.firstFailure W r = none →
      (main W r fuel).calls =
        main.bootstrap W ++
          (main.loop ((main.shaderProgram W).value 0) ((main.triangle W).value ⟨0, 0⟩) fuel
            r.createWindow.1 r.pollEvents).1 ++
          (if (main.loop ((main.shaderProgram W).value 0) ((main.triangle W).value ⟨0, 0⟩) fuel
              r.createWindow.1 r.pollEvents).2
            then main.release W else []) ∧
      (main W r fuel).exit =
        (if (main.loop ((main.shaderProgram W).value 0) ((main.triangle W).value ⟨0, 0⟩) fuel
            r.createWindow.1 r.pollEvents).2
          then Exit.returned else Exit.running) ∧
      (main W r fuel).gl = setupScene (main.triangle W).calls) ∧
    ((∃ p s, Step.drawScene p s ∈ (main W r fuel).steps) →
      ∀ f ∈ main.fallible W r, f.status = Status.ok) := by
  obtain ⟨hB, hP, hC, hD⟩ := main.run_cases W r fuel
  refine ⟨?_, hB, hP, hC, hD⟩
  intro hnp
  cases hff : main.firstFailure W r with
  | none =>
    obtain ⟨hcalls, _⟩ := hC hff
    obtain ⟨k, _, hk⟩ :=
      main.loop_shape ((main.shaderProgram W).value 0) ((main.triangle W).value ⟨0, 0⟩) fuel
        r.createWindow.1 r.pollEvents
    rw [hcalls, hk]
    cases (main.loop ((main.shaderProgram W).value 0) ((main.triangle W).value ⟨0, 0⟩) fuel
        r.createWindow.1 r.pollEvents).2 with
    | true => exact ⟨k, [], by simp⟩
    | false => exact ⟨k, [Step.ShouldClose] ++ main.release W, by simp⟩
  | some f =>
    have hne : f.status ≠ Status.ok := by
      have := List.find?_some hff
      simpa using this
    cases hs : f.status with
    | ok => exact absurd hs hne
    | panicked => exact absurd hs (hnp f hff)
    | failed err =>
      obtain ⟨hcalls, _⟩ := hB f hff err hs
      refine ⟨0, (main.bootstrap W).drop f.done ++ [Step.ShouldClose] ++ main.release W, ?_⟩
      rw [hcalls]
      simp only [main.frames, List.replicate_zero, List.flatten_nil, List.append_nil,
        List.append_assoc]
      rw [← List.append_assoc, List.take_append_drop]

/-- C4, witness: a run in which the fragment shader fails to compile with an
info log of 5 bytes, and a run in which everything succeeds and the first
`PollEvents` sets the flag. -/
theorem main_stops_at_first_failure_witness :
    (main (fragmentFailingDriver 5) (smoothRun false (fun _ => true)) 5).calls =
        [Step.glfwInit,
         Step.WindowHint glfw.Resizable glfw.True,
         Step.WindowHint glfw.ContextVersionMajor 4,
         Step.WindowHint glfw.ContextVersionMinor 1,
         Step.WindowHint glfw.OpenGLProfile glfw.OpenGLCoreProfile,
         Step.WindowHint glfw.OpenGLForwardCompatible glfw.True,
         Step.CreateWindow 800 600 "Elevated",
         Step.MakeContextCurrent,
         Step.SetKeyCallback,
         Step.glInit,
         Step.compileShader vertexShaderSource gl.VERTEX_SHADER,
         Step.compileShader fragmentShaderSource gl.FRAGMENT_SHADER] ∧
      (main (fragmentFailingDriver 5) (smoothRun false (fun _ => true)) 5).steps.getLast? =
        some (Step.logFatalln "[E] Failed to compile shader:"
          ("failed to compile " ++ fragmentShaderSource ++ ": " ++ "syntax error")) ∧
      (main (fragmentFailingDriver 5) (smoothRun false (fun _ => true)) 5).exit = Exit.fatal ∧
      (main agreeableDriver (smoothRun false (fun _ => true)) 5).calls =
        main.bootstrap agreeableDriver ++
          [Step.ShouldClose, Step.drawScene 1 ⟨1, 1⟩, Step.PollEvents, Step.ShouldClose] ++
          [Step.DeleteShader 1, Step.DeleteShader 1, Step.Terminate] ∧
      (main agreeableDriver (smoothRun false (fun _ => true)) 5).exit = Exit.returned := by
  have hfail := (main_stops_at_first_failure (fragmentFailingDriver 5)
    (smoothRun false (fun _ => true)) 5).2.1
    ⟨12, "[E] Failed to compile shader:", (main.fragmentShader (fragmentFailingDriver 5)).status,
      [Step.DeleteShader ((main.vertexShader (fragmentFailingDriver 5)).value 0), Step.Terminate],
      (main.fragmentShader (fragmentFailingDriver 5)).calls⟩ (by decide)
    ("failed to compile " ++ fragmentShaderSource ++ ": " ++ "syntax error") (by decide)
  have hok := (main_stops_at_first_failure agreeableDriver
    (smoothRun false (fun _ => true)) 5).2.2.2.1 (by decide)
  exact ⟨hfail.1, hfail.2.1, hfail.2.2.1, hok.1, hok.2.1⟩

/-- C4, counterexample: the vertex shader compiles; for the fragment shader
the driver reports a failed compilation and an info log of 2^31 - 1 bytes, so
`compileShader` panics.  `main` then runs the deferred
`DeleteShader(vertexShader)` and `glfw.Terminate` right after the second
`compileShader` and crashes: what it performs is not an initial part of the
claimed sequence, in which `newProgram` follows the second `compileShader`. -/
theorem main_panic_runs_deferred :
    (main (fragmentFailingDriver 2147483647) (smoothRun false (fun _ => true)) 5).calls =
        [Step.glfwInit,
         Step.WindowHint glfw.Resizable glfw.True,
         Step.WindowHint glfw.ContextVersionMajor 4,
         Step.WindowHint glfw.ContextVersionMinor 1,
         Step.WindowHint glfw.OpenGLProfile glfw.OpenGLCoreProfile,
         Step.WindowHint glfw.OpenGLForwardCompatible glfw.True,
         Step.CreateWindow 800 600 "Elevated",
         Step.MakeContextCurrent,
         Step.SetKeyCallback,
         Step.glInit,
         Step.compileShader vertexShaderSource gl.VERTEX_SHADER,
         Step.compileShader fragmentShaderSource gl.FRAGMENT_SHADER,
         Step.DeleteShader 1,
         Step.Terminate] ∧
      (main (fragmentFailingDriver 2147483647) (smoothRun false (fun _ => true)) 5).exit =
        Exit.panicked ∧
      ¬ ∃ k rest,
        (main (fragmentFailingDriver 2147483647) (smoothRun false (fun _ => true)) 5).calls ++
            rest =
          main.bootstrap (fragmentFailingDriver 2147483647) ++
            main.frames ((main.shaderProgram (fragmentFailingDriver 2147483647)).value 0)
              ((main.triangle (fragmentFailingDriver 2147483647)).value ⟨0, 0⟩) k ++
            [Step.ShouldClose] ++ main.release (fragmentFailingDriver 2147483647) := by
  have hcalls : (main (fragmentFailingDriver 2147483647)
      (smoothRun false (fun _ => true)) 5).calls =
        [Step.glfwInit,
         Step.WindowHint glfw.Resizable glfw.True,
         Step.WindowHint glfw.ContextVersionMajor 4,
         Step.WindowHint glfw.ContextVersionMinor 1,
         Step.WindowHint glfw.OpenGLProfile glfw.OpenGLCoreProfile,
         Step.WindowHint glfw.OpenGLForwardCompatible glfw.True,
         Step.CreateWindow 800 600 "Elevated",
         Step.MakeContextCurrent,
         Step.SetKeyCallback,
         Step.glInit,
         Step.compileShader vertexShaderSource gl.VERTEX_SHADER,
         Step.compileShader fragmentShaderSource gl.FRAGMENT_SHADER,
         Step.DeleteShader 1,
         Step.Terminate] := by
    decide
  refine ⟨hcalls, by decide, ?_⟩
  rintro ⟨k, rest, h⟩
  rw [hcalls] at h
  have h12 := congrArg (fun l => l[12]?) h
  simp [main.bootstrap] at h12

/-! ## C strings handed to the binding -/

theorem Str_some {s b : String} (h : gl.Str s = some b) : endsInNUL b = true := by
  unfold gl.Str at h
  split at h
  · rename_i hs
    rw [← Option.some.inj h]
    exact hs
  · exact absurd h (by simp)

theorem NULterminated_nil : NULterminated [] := by
  intro call hc
  exact absurd hc (List.not_mem_nil call)

theorem NULterminated_append {a b : List Call} (ha : NULterminated a) (hb : NULterminated b) :
    NULterminated (a ++ b) := by
  intro call hc
  rcases List.mem_append.mp hc with hc | hc
  · exact ha call hc
  · exact hb call hc

theorem NULterminated_of_no_cstrings {l : List Call} (h : ∀ call ∈ l, call.cstrings = []) :
    NULterminated l := by
  intro call hc s hs
  rw [h call hc] at hs
  exact absurd hs (List.not_mem_nil s)

theorem NULterminated_cons {c : Call} {l : List Call}
    (hc : ∀ s ∈ c.cstrings, endsInNUL s = true) (hl : NULterminated l) :
    NULterminated (c :: l) := by
  intro call hm
  rcases List.mem_cons.mp hm with rfl | hm
  · exact hc
  · exact hl call hm

theorem compileShader_NULterminated (W : World) (source : String) (shaderType : Nat)
    (t : List Call) (hs : endsInNUL source = true) (ht : NULterminated t) :
    NULterminated (compileShader W source shaderType t).calls := by
  have hc : NULterminated (compileShader.compile W source shaderType t) := by
    unfold compileShader.compile
    refine NULterminated_append ht ?_
    refine NULterminated_cons (by simp [Call.cstrings]) ?_
    refine NULterminated_cons (by simpa [Call.cstrings] using hs) ?_
    exact NULterminated_of_no_cstrings (by simp [Call.cstrings])
  rw [compileShader_unfold]
  split
  · split
    · exact NULterminated_append hc (NULterminated_of_no_cstrings (by simp [Call.cstrings]))
    · split
      · exact NULterminated_append hc (NULterminated_of_no_cstrings (by simp [Call.cstrings]))
      · rename_i buf hbuf
        refine NULterminated_append hc ?_
        refine NULterminated_cons (by simp [Call.cstrings]) ?_
        refine NULterminated_cons (by simpa [Call.cstrings] using Str_some hbuf) ?_
        exact NULterminated_of_no_cstrings (by simp [Call.cstrings])
  · exact hc

theorem newProgram_NULterminated (W : World) (shaders : List Nat) (t : List Call)
    (ht : NULterminated t) : NULterminated (newProgram W shaders t).calls := by
  by_cases hne : shaders = []
  · subst hne
    exact ht
  · have hl : NULterminated (newProgram.link W shaders t) := by
      unfold newProgram.link
      refine NULterminated_append (NULterminated_append (NULterminated_append
        (NULterminated_append (NULterminated_append ht ?_) ?_) ?_) ?_) ?_ <;>
        exact NULterminated_of_no_cstrings (by simp [Call.cstrings])
    rw [newProgram_unfold W shaders t hne]
    split
    · split
      · exact NULterminated_append hl (NULterminated_of_no_cstrings (by simp [Call.cstrings]))
      · split
        · exact NULterminated_append hl (NULterminated_of_no_cstrings (by simp [Call.cstrings]))
        · rename_i buf hbuf
          refine NULterminated_append hl ?_
          refine NULterminated_cons (by simp [Call.cstrings]) ?_
          refine NULterminated_cons (by simpa [Call.cstrings] using Str_some hbuf) ?_
          exact NULterminated_of_no_cstrings (by simp [Call.cstrings])
    · exact hl

theorem LoadTriangle_NULterminated (W : World) (p : program) (s : state) (t : List Call)
    (ht : NULterminated t) : NULterminated (LoadTriangle W p s t).calls := by
  have hvert : endsInNUL "vert\x00" = true := by decide
  have hu : NULterminated (LoadTriangle.upload W p t) := by
    unfold LoadTriangle.upload
    refine NULterminated_append ht ?_
    intro call hc s hs
    simp only [List.mem_cons, List.mem_singleton, List.not_mem_nil, or_false] at hc
    rcases hc with rfl | rfl | rfl | rfl | rfl | rfl <;> simp [Call.cstrings] at hs
    rw [hs]
    exact hvert
  rw [LoadTriangle_unfold]
  split
  · exact hu
  · exact NULterminated_append hu (NULterminated_of_no_cstrings (by simp [Call.cstrings]))

theorem setupScene_NULterminated (t : List Call) (ht : NULterminated t) :
    NULterminated (setupScene t) := by
  unfold setupScene
  simp only [List.append_assoc]
  exact NULterminated_append ht (NULterminated_of_no_cstrings (by simp [Call.cstrings]))

theorem drawScene_NULterminated (window : Window) (p : program) (s : state) (t : List Call)
    (ht : NULterminated t) : NULterminated (drawScene window p s t).2.2 := by
  unfold drawScene Window.SwapBuffers
  simp only [List.append_assoc]
  exact NULterminated_append ht (NULterminated_of_no_cstrings (by simp [Call.cstrings]))

theorem endsInNUL_vertexShaderSource : endsInNUL vertexShaderSource = true := by
  unfold vertexShaderSource shaderResource
  exact endsInNUL_append_NUL _

theorem endsInNUL_fragmentShaderSource : endsInNUL fragmentShaderSource = true := by
  unfold fragmentShaderSource shaderResource
  exact endsInNUL_append_NUL _

theorem main.fallible_NULterminated (W : World) (r : Results) :
    (∀ f ∈ main.fallible W r, NULterminated f.gl) ∧ NULterminated (main.triangle W).calls := by
  have h0 : NULterminated main.infoCalls :=
    NULterminated_of_no_cstrings (by simp [main.infoCalls, Call.cstrings])
  have hv : NULterminated (main.vertexShader W).calls :=
    compileShader_NULterminated W _ _ _ endsInNUL_vertexShaderSource h0
  have hf : NULterminated (main.fragmentShader W).calls :=
    compileShader_NULterminated W _ _ _ endsInNUL_fragmentShaderSource hv
  have hp : NULterminated (main.shaderProgram W).calls := newProgram_NULterminated W _ _ hf
  have ht : NULterminated (main.triangle W).calls := LoadTriangle_NULterminated W _ _ _ hp
  refine ⟨?_, ht⟩
  intro f hm
  simp only [main.fallible, List.mem_cons, List.mem_singleton, List.not_mem_nil, or_false] at hm
  rcases hm with rfl | rfl | rfl | rfl | rfl | rfl | rfl
  · exact NULterminated_nil
  · exact NULterminated_nil
  · exact NULterminated_nil
  · exact hv
  · exact hf
  · exact hp
  · exact ht

/-- Every C string `main` hands to the binding during its bootstrap ends in NUL. -/
theorem main.gl_NULterminated (W : World) (r : Results) (fuel : Nat) :
    NULterminated (main W r fuel).gl := by
  obtain ⟨hB, hP, hC, _⟩ := main.run_cases W r fuel
  obtain ⟨hfall, htri⟩ := main.fallible_NULterminated W r
  cases hff : main.firstFailure W r with
  | none =>
    rw [(hC hff).2.2]
    exact setupScene_NULterminated _ htri
  | some f =>
    have hmem : f ∈ main.fallible W r := List.mem_of_find?_eq_some hff
    have hne : f.status ≠ Status.ok := by
      have := List.find?_some hff
      simpa using this
    cases hs : f.status with
    | ok => exact absurd hs hne
    | failed err =>
      rw [(hB f hff err hs).2.2.2.1]
      exact hfall f hmem
    | panicked =>
      rw [(hP f hff hs).2.2.1]
      exact hfall f hmem

theorem main.frames_mem (p : program) (s : state) (k : Nat) :
    ∀ x ∈ main.frames p s k, x = Step.ShouldClose ∨ x = Step.drawScene p s ∨ x = Step.PollEvents := by
  induction k with
  | zero => simp [main.frames]
  | succ k ih =>
    rw [main.frames_succ]
    intro x hx
    simp only [List.mem_cons] at hx
    rcases hx with rfl | rfl | rfl | hx
    · exact Or.inl rfl
    · exact Or.inr (Or.inl rfl)
    · exact Or.inr (Or.inr rfl)
    · exact ih x hx

theorem main.loop_mem (p : program) (s : state) (fuel : Nat) (w : Window) (polls : Nat → Bool) :
    ∀ x ∈ (main.loop p s fuel w polls).1,
      x = Step.ShouldClose ∨ x = Step.drawScene p s ∨ x = Step.PollEvents := by
  obtain ⟨k, _, h⟩ := main.loop_shape p s fuel w polls
  rw [h]
  intro x hx
  rcases List.mem_append.mp hx with hx | hx
  · exact main.frames_mem p s k x hx
  · split at hx
    · exact Or.inl (List.mem_singleton.mp hx)
    · exact absurd hx (List.not_mem_nil x)

/-- The sources `main` compiles are the vertex and the fragment source. -/
theorem main.compiled_sources (W : World) (r : Results) (fuel : Nat) (source : String)
    (shaderType : Nat) (h : Step.compileShader source shaderType ∈ (main W r fuel).calls) :
    source = vertexShaderSource ∨ source = fragmentShaderSource := by
  obtain ⟨hB, hP, hC, _⟩ := main.run_cases W r fuel
  have hboot : Step.compileShader source shaderType ∈ main.bootstrap W →
      source = vertexShaderSource ∨ source = fragmentShaderSource := by
    intro hm
    simp [main.bootstrap] at hm
    rcases hm with hm | hm
    · exact Or.inl hm.1
    · exact Or.inr hm.1
  have hrel : Step.compileShader source shaderType ∉ main.release W := by
    simp [main.release]
  cases hff : main.firstFailure W r with
  | none =>
    rw [(hC hff).1] at h
    rcases List.mem_append.mp h with h | h
    · rcases List.mem_append.mp h with h | h
      · exact hboot h
      · have := main.loop_mem _ _ _ _ _ _ h
        simp at this
    · split at h
      · exact absurd h hrel
      · exact absurd h (List.not_mem_nil _)
  | some f =>
    have hmem : f ∈ main.fallible W r := List.mem_of_find?_eq_some hff
    have hne : f.status ≠ Status.ok := by
      have := List.find?_some hff
      simpa using this
    cases hs : f.status with
    | ok => exact absurd hs hne
    | failed err =>
      rw [(hB f hff err hs).1] at h
      exact hboot (List.mem_of_mem_take h)
    | panicked =>
      rw [(hP f hff hs).1] at h
      rcases List.mem_append.mp h with h | h
      · exact hboot (List.mem_of_mem_take h)
      · exfalso
        simp only [main.fallible, List.mem_cons, List.mem_singleton, List.not_mem_nil,
          or_false] at hmem
        rcases hmem with rfl | rfl | rfl | rfl | rfl | rfl | rfl <;>
          simp [main.release] at h

theorem infoLog_count_negative (x : Int) (h : int32 x < -1 ∨ int32 x = 2 ^ 31 - 1) :
    int32 (int32 x + 1) < 0 := by
  have hb := int32_bounds x
  rcases h with h | h
  · rw [int32_of_range (by omega) (by omega)]
    omega
  · rw [h, int32_succ_max]
    omega

/-- The call of `gl.Str` on the info-log buffer is reached and panics exactly
when the reported log length is -1. -/
theorem Str_panics_iff (x : Int) :
    (∃ log, strings.Repeat "\x00" (int32 (int32 x + 1)) = some log ∧ gl.Str log = none) ↔
      int32 x = -1 := by
  have hb := int32_bounds x
  constructor
  · rintro ⟨log, hrep, hstr⟩
    by_contra hne
    by_cases hr : 0 ≤ int32 x ∧ int32 x < 2 ^ 31 - 1
    · obtain ⟨h1, h2⟩ := infoLog_buffer hr.1 hr.2
      rw [h1] at hrep
      rw [← Option.some.inj hrep, h2] at hstr
      exact absurd hstr (by simp)
    · have hneg := infoLog_count_negative x (by omega)
      rw [Repeat_negative _ hneg] at hrep
      exact absurd hrep (by simp)
  · intro h
    rw [h]
    exact ⟨nulls 0, by decide, by decide⟩

/-- C10 (amended): every string handed to the binding as a C string ends in
NUL, and `gl.Str` panics only on the info-log buffer, exactly when the driver
reports a log length of -1.  `glStr(s)` is `s` with a NUL appended and `gl.Str`
accepts it; `shaderResource(s)` is `"#version 330\n\n"`, then `s`, then one
NUL byte; the vertex and the fragment source are `shaderResource` results, end
in NUL and are the only sources `main` compiles; and for an `int32`
`logLength` with `0 <= logLength < 2^31 - 1` the info-log buffer
`strings.Repeat("\x00", int(logLength+1))` is built without a panic, consists
of exactly `logLength + 1` NUL bytes and is accepted by `gl.Str`; with such a
log length this is the buffer `compileShader` and `newProgram` hand to
`GetShaderInfoLog` and `GetProgramInfoLog` after a failure.  For every driver
each C string in the OpenGL calls of `main` up to `setupScene` ends in NUL,
and `drawScene` hands over none. -/
theorem strings_for_gl_end_in_NUL (s : String) (logLength : Int) (h0 : 0 ≤ logLength)
    (h1 : logLength < 2 ^ 31 - 1) :
    glStr s = some (s ++ "\x00") ∧
    endsInNUL (s ++ "\x00") = true ∧
    shaderResource s = "#version 330\n\n" ++ s ++ "\x00" ∧
    (shaderResource s).data = "#version 330\n\n".data ++ s.data ++ [NUL] ∧
    endsInNUL (shaderResource s) = true ∧
    int32 logLength = logLength ∧
    strings.Repeat "\x00" (int32 (logLength + 1)) = some (nulls (logLength + 1).toNat) ∧
    (nulls (logLength + 1).toNat).data = List.replicate (logLength + 1).toNat NUL ∧
    ((nulls (logLength + 1).toNat).data.length : Int) = logLength + 1 ∧
    gl.Str (nulls (logLength + 1).toNat) = some (nulls (logLength + 1).toNat) ∧
    (∀ (W : World) (source : String) (shaderType : Nat) (t : List Call),
      compileShader.status W source shaderType t = gl.FALSE →
      compileShader.logLength W source shaderType t = logLength →
      Call.GetShaderInfoLog (compileShader.shader W shaderType t) logLength
        (nulls (logLength + 1).toNat) ∈ (compileShader W source shaderType t).calls) ∧
    (∀ (W : World) (shaders : List Nat) (t : List Call), shaders ≠ [] →
      newProgram.status W shaders t = gl.FALSE →
      newProgram.logLength W shaders t = logLength →
      Call.GetProgramInfoLog (newProgram.program W t) logLength
        (nulls (logLength + 1).toNat) ∈ (newProgram W shaders t).calls) ∧
    ((∃ body, vertexShaderSource = shaderResource body) ∧ endsInNUL vertexShaderSource = true) ∧
    ((∃ body, fragmentShaderSource = shaderResource body) ∧
      endsInNUL fragmentShaderSource = true) ∧
    (∀ (W : World) (r : Results) (fuel : Nat) (source : String) (shaderType : Nat),
      Step.compileShader source shaderType ∈ (main W r fuel).calls →
      source = vertexShaderSource ∨ source = fragmentShaderSource) ∧
    (∀ (W : World) (r : Results) (fuel : Nat), NULterminated (main W r fuel).gl) ∧
    (∀ (window : Window) (p : program) (st : state) (t : List Call),
      NULterminated t → NULterminated (drawScene window p st t).2.2) ∧
    (∀ x : Int,
      (∃ log, strings.Repeat "\x00" (int32 (int32 x + 1)) = some log ∧ gl.Str log = none) ↔
        int32 x = -1) := by
  have hb := infoLog_buffer h0 h1
  refine ⟨glStr_eq s, endsInNUL_append_NUL s, rfl, ?_, endsInNUL_append_NUL _,
    int32_of_range (by omega) (by omega), hb.1, rfl, ?_, hb.2, ?_, ?_,
    ⟨⟨_, rfl⟩, endsInNUL_vertexShaderSource⟩, ⟨⟨_, rfl⟩, endsInNUL_fragmentShaderSource⟩,
    main.compiled_sources, main.gl_NULterminated, drawScene_NULterminated, Str_panics_iff⟩
  · unfold shaderResource
    rw [String.data_append, String.data_append]
    rfl
  · unfold nulls
    rw [List.length_replicate]
    omega
  · intro W source shaderType t hs hl
    obtain ⟨msg, hm⟩ := compileShader_of_failed W source shaderType t hs (by omega) (by omega)
    rw [hm, hl]
    simp [Outcome.calls]
  · intro W shaders t hne hs hl
    obtain ⟨msg, hm⟩ := newProgram_of_failed W shaders t hne hs (by omega) (by omega)
    rw [hm, hl]
    simp [Outcome.calls]

/-- C10, witness: the attribute name `vert` and an info log of 511 bytes. -/
theorem strings_for_gl_end_in_NUL_witness :
    (0 : Int) ≤ 511 ∧ (511 : Int) < 2 ^ 31 - 1 ∧
      glStr "vert" = some ("vert" ++ "\x00") ∧
      strings.Repeat "\x00" (int32 (511 + 1)) = some (nulls ((511 : Int) + 1).toNat) ∧
      gl.Str (nulls ((511 : Int) + 1).toNat) = some (nulls ((511 : Int) + 1).toNat) := by
  obtain ⟨a, _, _, _, _, _, b, _, _, c, _⟩ :=
    strings_for_gl_end_in_NUL "vert" 511 (by decide) (by decide)
  exact ⟨by decide, by decide, a, b, c⟩

/-- C10, counterexample: the driver reports a failed compilation and an info
log of -1 bytes.  In `compileShader` of the vertex source, the first that
`main` makes, `logLength + 1` is 0, the buffer is the empty string, which does
not end in NUL, `gl.Str` panics on it, and `main` crashes. -/
theorem Str_panic_reached :
    compileShader.status (failingDriver (-1)) vertexShaderSource gl.VERTEX_SHADER
        main.infoCalls = gl.FALSE ∧
      compileShader.logLength (failingDriver (-1)) vertexShaderSource gl.VERTEX_SHADER
        main.infoCalls = -1 ∧
      strings.Repeat "\x00" (int32 (-1 + 1)) = some "" ∧
      endsInNUL "" = false ∧
      gl.Str "" = none ∧
      (main (failingDriver (-1)) (smoothRun false (fun _ => true)) 5).exit = Exit.panicked := by
  decide

end Elevated
